import Mathlib

/-!
Verification development for `CGAT/SequenceProperties.py` (sudlab/cgat).

The Python classes are embedded shallowly: each accumulator class becomes a
Lean structure whose fields carry the same names as the Python instance
attributes, and each method becomes a function on that structure.  Python
dictionaries with a fixed key set are modelled as total functions `Char → Nat`
(resp. pair-indexed functions) together with the explicit key list; the
`try/except KeyError` idiom of the source is modelled by a membership test
against that key list.  Python floats appearing in this module only ever hold
exact small rationals, so they are modelled as `ℚ`.  Exceptions are modelled
by returning the mutated object together with an `Option PyErr`
(Python mutates `self` in place before an exception propagates).
-/

namespace CGATSeqProps

/-- Python exception kinds raised by the embedded code. -/
inductive PyErr where
  | valueError
  | keyError
  | indexError
deriving DecidableEq, Repr

/-- Semantic value of one output column produced by `getFields`:
an integer count (`"%i"`), an exact rational for a float field,
a literal string, or the `"na"` sentinel. -/
inductive FieldVal where
  | intF (n : ℤ)
  | ratF (q : ℚ)
  | strS (s : String)
  | naF
deriving DecidableEq, Repr

/-- Increment of one entry of a dict-as-function counter table. -/
def bump (f : Char → Nat) (c : Char) : Char → Nat :=
  fun x => if x = c then f x + 1 else f x

/-- Increment of one entry of a dinucleotide counter table. -/
def bump2 (f : Char × Char → Nat) (p : Char × Char) : Char × Char → Nat :=
  fun x => if x = p then f x + 1 else f x

/-- Character class of the regular expression `[ -.]` used by
`SequenceProperties.loadSequence`: inside a character class `" -."` denotes
the ASCII RANGE from space (0x20) to dot (0x2E), not the three literal
characters. -/
def inStripRange (c : Char) : Bool := ' ' ≤ c && c ≤ '.'

/-- Result of `re.sub("[ -.]", "", in_sequence).upper()`. -/
def pyClean (s : List Char) : List Char :=
  (s.filter (fun c => !inStripRange c)).map Char.toUpper

/-- Overlapping two-character windows `[sequence[x-2:x] for x in range(2, len(sequence)+1)]`. -/
def pairsOf (s : List Char) : List (Char × Char) := s.zip s.tail

/-- Codon type: a three-character chunk of an in-frame sequence. -/
abbrev Codon := Char × Char × Char

/-- In-frame codon chunks `[sequence[x:x+3] for x in range(0, len(sequence), 3)]`
of a sequence whose length is a multiple of 3 (a trailing partial chunk is
dropped; the source only reaches this after the multiple-of-3 check). -/
def codonsOf : List Char → List Codon
  | a :: b :: c :: r => (a, b, c) :: codonsOf r
  | _ => []

/-- Alphabet `Bio.Alphabet.IUPAC.unambiguous_dna.letters + "N"` = `"GATCN"`
used by `SequencePropertiesNA`. -/
def naAlphabet : List Char := ['G', 'A', 'T', 'C', 'N']

/-- Alphabet `Bio.Alphabet.IUPAC.unambiguous_dna.letters` = `"GATC"`
used by `SequencePropertiesDN`. -/
def dnAlphabet : List Char := ['G', 'A', 'T', 'C']

/-! ## SequenceProperties (base class) -/

/-- State of the base class `SequenceProperties`. -/
structure SequenceProperties where
  mLength : Nat
  mTitle : String
  mSeqType : String
  mSequence : List Char
deriving Repr

/-- Constructor `SequenceProperties.__init__`. -/
def SequenceProperties.init : SequenceProperties :=
  { mLength := 0, mTitle := "Unknown", mSeqType := "na", mSequence := [] }

/-- Method `SequenceProperties.loadSequence`: strip `[ -.]`, uppercase,
store title, seqtype, the cleaned sequence and its length. -/
def SequenceProperties.loadSequence (self : SequenceProperties) (in_sequence : List Char)
    (title seqtype : String) : SequenceProperties :=
  let sequence := pyClean in_sequence
  { self with
    mTitle := title
    mSeqType := seqtype
    mSequence := sequence
    mLength := sequence.length }

/-- Method `SequenceProperties.addProperties`. -/
def SequenceProperties.addProperties (self other : SequenceProperties) : SequenceProperties :=
  { self with mLength := self.mLength + other.mLength }

/-- Method `SequenceProperties.getFields` (the base class returns the empty row). -/
def SequenceProperties.getFields (_self : SequenceProperties) : List FieldVal := []

/-- Method `SequenceProperties.getHeaders`. -/
def SequenceProperties.getHeaders (_self : SequenceProperties) : List String := []

/-! ## SequencePropertiesNA

`SequencePropertiesNA` inherits from `SequencePropertiesLength`, which
inherits from `SequenceProperties`; the structure is flattened here.
`SequencePropertiesLength.loadSequence` first runs the base
`loadSequence` (storing the cleaned sequence and its length) and then
OVERWRITES `mLength` and `mNCodons` with the length of the raw, uncleaned
parameter.  `mNCodons` is a true division (`from __future__ import division`),
hence a rational. -/

structure SequencePropertiesNA where
  mLength : Nat
  mTitle : String
  mSeqType : String
  mSequence : List Char
  mNCodons : ℚ
  mCountsGC : Nat
  mCountsAT : Nat
  mCountsOthers : Nat
  mCountsNA : Char → Nat

/-- Constructor `SequencePropertiesNA.__init__`. -/
def SequencePropertiesNA.init : SequencePropertiesNA :=
  { mLength := 0, mTitle := "Unknown", mSeqType := "na", mSequence := []
    mNCodons := 0, mCountsGC := 0, mCountsAT := 0, mCountsOthers := 0
    mCountsNA := fun _ => 0 }

/-- First statement of the per-character loop of
`SequencePropertiesNA.loadSequence`: classify the character as GC or AT. -/
def naStepGCAT (st : SequencePropertiesNA) (na : Char) : SequencePropertiesNA :=
  if na = 'G' ∨ na = 'C' then { st with mCountsGC := st.mCountsGC + 1 }
  else if na = 'A' ∨ na = 'T' then { st with mCountsAT := st.mCountsAT + 1 }
  else st

/-- Second statement of the loop: count into the fixed-alphabet dict, the
`KeyError` branch incrementing `mCountsOthers`. -/
def naStepDict (st : SequencePropertiesNA) (na : Char) : SequencePropertiesNA :=
  if na ∈ naAlphabet then { st with mCountsNA := bump st.mCountsNA na }
  else { st with mCountsOthers := st.mCountsOthers + 1 }

/-- Body of the per-character loop of `SequencePropertiesNA.loadSequence`. -/
def naStep (st : SequencePropertiesNA) (na : Char) : SequencePropertiesNA :=
  naStepDict (naStepGCAT st na) na

/-- Method `SequencePropertiesNA.loadSequence`.  Faithful to the source:
the `SequencePropertiesLength` part overwrites `mLength`/`mNCodons` with the
raw parameter's length; only the per-symbol dict `mCountsNA` is reset (the
scalars `mCountsGC`, `mCountsAT`, `mCountsOthers` are NOT reset); the counting
loop runs over `sequence.upper()` of the raw parameter. -/
def SequencePropertiesNA.loadSequence (self : SequencePropertiesNA) (in_sequence : List Char)
    (title seqtype : String) : SequencePropertiesNA :=
  let cleaned := pyClean in_sequence
  let st := { self with
    mTitle := title
    mSeqType := seqtype
    mSequence := cleaned
    mLength := in_sequence.length
    mNCodons := if seqtype = "na" then (in_sequence.length : ℚ) / 3 else 0
    mCountsNA := fun _ => 0 }
  (in_sequence.map Char.toUpper).foldl naStep st

/-- Method `SequencePropertiesNA.addProperties` (including the inherited
`SequencePropertiesLength.addProperties` part).  The per-symbol dict addition
runs over the other accumulator's keys, which are exactly `naAlphabet`. -/
def SequencePropertiesNA.addProperties (self other : SequencePropertiesNA) :
    SequencePropertiesNA :=
  { self with
    mLength := self.mLength + other.mLength
    mNCodons := self.mNCodons + other.mNCodons
    mCountsGC := self.mCountsGC + other.mCountsGC
    mCountsAT := self.mCountsAT + other.mCountsAT
    mCountsOthers := self.mCountsOthers + other.mCountsOthers
    mCountsNA := fun c =>
      if c ∈ naAlphabet then self.mCountsNA c + other.mCountsNA c
      else self.mCountsNA c }

/-- Row of fields produced by `SequencePropertiesNA.getFields` from the raw
tallies (shared with the CpG subclass).  `"%i" % self.mNCodons` truncates the
nonnegative float, modelled by the floor. -/
def naFieldList (len : Nat) (nc : ℚ) (others gc at_ : Nat) (counts : Char → Nat) :
    List FieldVal :=
  let t : Nat := (naAlphabet.map counts).sum
  let countFields := naAlphabet.map (fun x => FieldVal.intF (counts x))
  let pctFields :=
    if t = 0 then naAlphabet.map (fun _ => FieldVal.naF)
    else naAlphabet.map (fun x => FieldVal.ratF ((counts x : ℚ) / (t : ℚ)))
  let t2 := gc + at_
  let gcatFields :=
    if t2 = 0 then [FieldVal.naF, FieldVal.naF]
    else [FieldVal.ratF ((gc : ℚ) / (t2 : ℚ)), FieldVal.ratF ((at_ : ℚ) / (t2 : ℚ))]
  [FieldVal.intF len, FieldVal.intF (Int.floor nc),
   FieldVal.intF others, FieldVal.intF gc, FieldVal.intF at_] ++
    countFields ++ pctFields ++ gcatFields

/-- Headers produced by `SequencePropertiesNA.getHeaders` (shared with the
CpG subclass).  Note the source appends the counts in the order
others, GC, AT, per-symbol in `getFields`, but the headers in the order
nUnk, per-symbol, nGC, nAT. -/
def naHeaderList : List String :=
  ["length", "ncodons", "nUnk"] ++ naAlphabet.map (fun x => String.push "n" x) ++
    ["nGC", "nAT"] ++ naAlphabet.map (fun x => String.push "p" x) ++ ["pGC", "pAT"]

/-- Method `SequencePropertiesNA.getFields`. -/
def SequencePropertiesNA.getFields (self : SequencePropertiesNA) : List FieldVal :=
  naFieldList self.mLength self.mNCodons self.mCountsOthers self.mCountsGC
    self.mCountsAT self.mCountsNA

/-- Method `SequencePropertiesNA.getHeaders`. -/
def SequencePropertiesNA.getHeaders (_self : SequencePropertiesNA) : List String :=
  naHeaderList

/-! ## SequencePropertiesDN -/

/-- State of `SequencePropertiesDN` (inherits directly from the base class,
so `mLength` stays the cleaned length). -/
structure SequencePropertiesDN where
  mLength : Nat
  mTitle : String
  mSeqType : String
  mSequence : List Char
  mCountsOthers : Nat
  mCountsDinuc : Char × Char → Nat

/-- Constructor `SequencePropertiesDN.__init__`. -/
def SequencePropertiesDN.init : SequencePropertiesDN :=
  { mLength := 0, mTitle := "Unknown", mSeqType := "na", mSequence := []
    mCountsOthers := 0, mCountsDinuc := fun _ => 0 }

/-- Membership of a dinucleotide in the fixed 16-key dict of
`SequencePropertiesDN`. -/
def dnKeys (p : Char × Char) : Prop :=
  p.1 ∈ dnAlphabet ∧ p.2 ∈ dnAlphabet

instance (p : Char × Char) : Decidable (dnKeys p) := by
  unfold dnKeys
  infer_instance

/-- Body of the dinucleotide loop of `SequencePropertiesDN.loadSequence`. -/
def dnStep (st : SequencePropertiesDN) (p : Char × Char) : SequencePropertiesDN :=
  if dnKeys p then { st with mCountsDinuc := bump2 st.mCountsDinuc p }
  else { st with mCountsOthers := st.mCountsOthers + 1 }

/-- Method `SequencePropertiesDN.loadSequence`.  Faithful to the source:
no tally is reset, and the window loop runs over the RAW parameter (the
source iterates `sequence`, not the cleaned/uppercased copy). -/
def SequencePropertiesDN.loadSequence (self : SequencePropertiesDN) (in_sequence : List Char)
    (title seqtype : String) : SequencePropertiesDN :=
  let cleaned := pyClean in_sequence
  let st := { self with
    mTitle := title
    mSeqType := seqtype
    mSequence := cleaned
    mLength := cleaned.length }
  (pairsOf in_sequence).foldl dnStep st

/-- Method `SequencePropertiesDN.addProperties`. -/
def SequencePropertiesDN.addProperties (self other : SequencePropertiesDN) :
    SequencePropertiesDN :=
  { self with
    mLength := self.mLength + other.mLength
    mCountsOthers := self.mCountsOthers + other.mCountsOthers
    mCountsDinuc := fun p =>
      if dnKeys p then self.mCountsDinuc p + other.mCountsDinuc p
      else self.mCountsDinuc p }

/-- The 16 dinucleotides in `itertools.product(alphabet, repeat=2)` order. -/
def dnPairs : List (Char × Char) :=
  dnAlphabet.foldr (fun a acc => dnAlphabet.map (fun b => (a, b)) ++ acc) []

/-- Row of fields produced by `SequencePropertiesDN.getFields` (shared with
the CpG subclass): 16 dinucleotide counts then the other-count. -/
def dnFieldList (others : Nat) (dinuc : Char × Char → Nat) : List FieldVal :=
  dnPairs.map (fun p => FieldVal.intF (dinuc p)) ++ [FieldVal.intF others]

/-- Headers produced by `SequencePropertiesDN.getHeaders` (the source
literally names the last column `mCountsOthers`). -/
def dnHeaderList : List String :=
  dnPairs.map (fun p => String.push (String.push "" p.1) p.2) ++ ["mCountsOthers"]

/-- Method `SequencePropertiesDN.getFields`. -/
def SequencePropertiesDN.getFields (self : SequencePropertiesDN) : List FieldVal :=
  dnFieldList self.mCountsOthers self.mCountsDinuc

/-- Method `SequencePropertiesDN.getHeaders`. -/
def SequencePropertiesDN.getHeaders (_self : SequencePropertiesDN) : List String :=
  dnHeaderList

/-! ## SequencePropertiesCpg

`SequencePropertiesCpg` inherits from BOTH `SequencePropertiesNA` and
`SequencePropertiesDN` (diamond inheritance over the base class): the two
parents share one `mLength`, one `mSequence` and one `mCountsOthers`
attribute.  The structure is flattened accordingly.  `loadSequence` first runs
the NA load (which leaves `mLength` at the raw length), then the DN load
(whose embedded base-class load overwrites `mLength` back to the cleaned
length), then computes the CpG density and observed/expected. -/

structure SequencePropertiesCpg where
  mLength : Nat
  mTitle : String
  mSeqType : String
  mSequence : List Char
  mNCodons : ℚ
  mCountsGC : Nat
  mCountsAT : Nat
  mCountsOthers : Nat
  mCountsNA : Char → Nat
  mCountsDinuc : Char × Char → Nat
  mCpG_density : ℚ
  mCpG_ObsExp : ℚ

/-- Constructor `SequencePropertiesCpg.__init__`. -/
def SequencePropertiesCpg.init : SequencePropertiesCpg :=
  { mLength := 0, mTitle := "Unknown", mSeqType := "na", mSequence := []
    mNCodons := 0, mCountsGC := 0, mCountsAT := 0, mCountsOthers := 0
    mCountsNA := fun _ => 0, mCountsDinuc := fun _ => 0
    mCpG_density := 0, mCpG_ObsExp := 0 }

/-- The NA per-character loop, acting on the CpG state (the same code runs on
the shared attributes via inheritance). -/
def cpgNaStep (st : SequencePropertiesCpg) (na : Char) : SequencePropertiesCpg :=
  let st1 :=
    if na = 'G' ∨ na = 'C' then { st with mCountsGC := st.mCountsGC + 1 }
    else if na = 'A' ∨ na = 'T' then { st with mCountsAT := st.mCountsAT + 1 }
    else st
  if na ∈ naAlphabet then { st1 with mCountsNA := bump st1.mCountsNA na }
  else { st1 with mCountsOthers := st1.mCountsOthers + 1 }

/-- The DN window loop, acting on the CpG state (it increments the SAME
`mCountsOthers` attribute as the NA loop). -/
def cpgDnStep (st : SequencePropertiesCpg) (p : Char × Char) : SequencePropertiesCpg :=
  if dnKeys p then { st with mCountsDinuc := bump2 st.mCountsDinuc p }
  else { st with mCountsOthers := st.mCountsOthers + 1 }

/-- Raw-tally part of `SequencePropertiesCpg.loadSequence`: the inherited
`SequencePropertiesNA.loadSequence` (whose `SequencePropertiesLength` part
stores the raw length), then the inherited `SequencePropertiesDN.loadSequence`
(whose base-class call overwrites `mLength` back to the cleaned length before
the window loop runs on the raw parameter). -/
def SequencePropertiesCpg.loadRaw (self : SequencePropertiesCpg) (in_sequence : List Char)
    (title seqtype : String) : SequencePropertiesCpg :=
  let cleaned := pyClean in_sequence
  let st := { self with
    mTitle := title
    mSeqType := seqtype
    mSequence := cleaned
    mLength := in_sequence.length
    mNCodons := if seqtype = "na" then (in_sequence.length : ℚ) / 3 else 0
    mCountsNA := fun _ => 0 }
  let st := (in_sequence.map Char.toUpper).foldl cpgNaStep st
  let st := { st with mLength := cleaned.length }
  (pairsOf in_sequence).foldl cpgDnStep st

/-- Method `SequencePropertiesCpg.loadSequence`: the raw tallies, then the
CpG density and observed/expected (all divisions are Python true divisions on
floats, modelled exactly in ℚ). -/
def SequencePropertiesCpg.loadSequence (self : SequencePropertiesCpg) (in_sequence : List Char)
    (title seqtype : String) : SequencePropertiesCpg :=
  let st := SequencePropertiesCpg.loadRaw self in_sequence title seqtype
  if 0 < st.mLength then
    let density := (st.mCountsDinuc ('C', 'G') : ℚ) / ((st.mLength : ℚ) / 2)
    let obsexp :=
      if 0 < ((st.mCountsNA 'C' * st.mCountsNA 'G' : ℚ) / (st.mLength : ℚ)) then
        (st.mCountsDinuc ('C', 'G') : ℚ) /
          (((st.mCountsNA 'C' : ℚ) * (st.mCountsNA 'G' : ℚ)) / (st.mLength : ℚ))
      else 0
    { st with mCpG_density := density, mCpG_ObsExp := obsexp }
  else
    { st with mCpG_density := 0, mCpG_ObsExp := 0 }

/-- Method `SequencePropertiesCpg.addProperties`.  Faithful to the source:
it calls `SequencePropertiesLength.addProperties` AND
`SequencePropertiesNA.addProperties` (which itself begins with the Length
part), so `mLength` and `mNCodons` are added TWICE; the dinucleotide table is
never added; the derived density and observed/expected are summed. -/
def SequencePropertiesCpg.addProperties (self other : SequencePropertiesCpg) :
    SequencePropertiesCpg :=
  { self with
    mLength := self.mLength + other.mLength + other.mLength
    mNCodons := self.mNCodons + other.mNCodons + other.mNCodons
    mCountsGC := self.mCountsGC + other.mCountsGC
    mCountsAT := self.mCountsAT + other.mCountsAT
    mCountsOthers := self.mCountsOthers + other.mCountsOthers
    mCountsNA := fun c =>
      if c ∈ naAlphabet then self.mCountsNA c + other.mCountsNA c
      else self.mCountsNA c
    mCpG_density := self.mCpG_density + other.mCpG_density
    mCpG_ObsExp := self.mCpG_ObsExp + other.mCpG_ObsExp }

/-- Method `SequencePropertiesCpg.getFields`: the NA row, then the DN row,
then the two derived CpG statistics (`"%s"` of a float, modelled as the
exact rational). -/
def SequencePropertiesCpg.getFields (self : SequencePropertiesCpg) : List FieldVal :=
  naFieldList self.mLength self.mNCodons self.mCountsOthers self.mCountsGC
      self.mCountsAT self.mCountsNA ++
    dnFieldList self.mCountsOthers self.mCountsDinuc ++
    [FieldVal.ratF self.mCpG_density, FieldVal.ratF self.mCpG_ObsExp]

/-- Method `SequencePropertiesCpg.getHeaders`. -/
def SequencePropertiesCpg.getHeaders (_self : SequencePropertiesCpg) : List String :=
  naHeaderList ++ dnHeaderList ++ ["CpG_density", "CpG_ObsExp"]

/-! ## SequencePropertiesGaps -/

/-- State of `SequencePropertiesGaps`. -/
structure SequencePropertiesGaps where
  mLength : Nat
  mTitle : String
  mSeqType : String
  mSequence : List Char
  gap_chars : List Char
  ngaps : Nat
  nseq_regions : Nat
  ngap_regions : Nat

/-- Constructor `SequencePropertiesGaps.__init__` with the default
`gap_chars='xXnN'`. -/
def SequencePropertiesGaps.init : SequencePropertiesGaps :=
  { mLength := 0, mTitle := "Unknown", mSeqType := "na", mSequence := []
    gap_chars := ['x', 'X', 'n', 'N'], ngaps := 0, nseq_regions := 0, ngap_regions := 0 }

/-- Body of the character loop of `SequencePropertiesGaps.loadSequence`;
the running tuple is `(was_gap, ngaps, ngap_regions, nseq_regions)`. -/
def gapsStep (gcs : List Char) (acc : Bool × Nat × Nat × Nat) (c : Char) :
    Bool × Nat × Nat × Nat :=
  let is_gap := decide (c ∈ gcs)
  if is_gap then
    (is_gap, acc.2.1 + 1, if !acc.1 then acc.2.2.1 + 1 else acc.2.2.1, acc.2.2.2)
  else
    (is_gap, acc.2.1, acc.2.2.1, if acc.1 then acc.2.2.2 + 1 else acc.2.2.2)

/-- Method `SequencePropertiesGaps.loadSequence`.  The source reads
`sequence[0]` (of the raw parameter) to initialize `was_gap` before the loop,
so the empty input raises `IndexError` after the base-class load has already
run; the loop itself also runs over the raw parameter. -/
def SequencePropertiesGaps.loadSequence (self : SequencePropertiesGaps)
    (in_sequence : List Char) (title seqtype : String) :
    SequencePropertiesGaps × Option PyErr :=
  let cleaned := pyClean in_sequence
  let st := { self with
    mTitle := title
    mSeqType := seqtype
    mSequence := cleaned
    mLength := cleaned.length }
  match in_sequence with
  | [] => (st, some PyErr.indexError)
  | c0 :: _ =>
    let start : Bool × Nat × Nat × Nat := (!decide (c0 ∈ st.gap_chars), 0, 0, 0)
    let r := in_sequence.foldl (gapsStep st.gap_chars) start
    ({ st with ngaps := r.2.1, ngap_regions := r.2.2.1, nseq_regions := r.2.2.2 }, none)

/-- Method `SequencePropertiesGaps.addProperties`. -/
def SequencePropertiesGaps.addProperties (self other : SequencePropertiesGaps) :
    SequencePropertiesGaps :=
  { self with
    mLength := self.mLength + other.mLength
    ngaps := self.ngaps + other.ngaps
    nseq_regions := self.nseq_regions + other.nseq_regions
    ngap_regions := self.ngap_regions + other.ngap_regions }

/-- Method `SequencePropertiesGaps.getFields`. -/
def SequencePropertiesGaps.getFields (self : SequencePropertiesGaps) : List FieldVal :=
  [FieldVal.intF self.ngaps, FieldVal.intF self.nseq_regions, FieldVal.intF self.ngap_regions]

/-- Method `SequencePropertiesGaps.getHeaders`. -/
def SequencePropertiesGaps.getHeaders (_self : SequencePropertiesGaps) : List String :=
  ["ngaps", "nseq_regions", "ngap_regions"]

/-! ## SequencePropertiesLength, SequencePropertiesSequence, SequencePropertiesHid -/

/-- State of `SequencePropertiesLength`. -/
structure SequencePropertiesLength where
  mLength : Nat
  mTitle : String
  mSeqType : String
  mSequence : List Char
  mNCodons : ℚ

/-- Constructor `SequencePropertiesLength.__init__`. -/
def SequencePropertiesLength.init : SequencePropertiesLength :=
  { mLength := 0, mTitle := "Unknown", mSeqType := "na", mSequence := [], mNCodons := 0 }

/-- Method `SequencePropertiesLength.loadSequence`: the base-class load, then
`mLength`/`mNCodons` are overwritten with the RAW parameter's length
(`len(sequence)` of the unstripped argument, a true division for
`mNCodons`). -/
def SequencePropertiesLength.loadSequence (self : SequencePropertiesLength)
    (in_sequence : List Char) (title seqtype : String) : SequencePropertiesLength :=
  let cleaned := pyClean in_sequence
  { self with
    mTitle := title
    mSeqType := seqtype
    mSequence := cleaned
    mLength := in_sequence.length
    mNCodons := if seqtype = "na" then (in_sequence.length : ℚ) / 3 else 0 }

/-- Method `SequencePropertiesLength.addProperties`. -/
def SequencePropertiesLength.addProperties (self other : SequencePropertiesLength) :
    SequencePropertiesLength :=
  { self with
    mLength := self.mLength + other.mLength
    mNCodons := self.mNCodons + other.mNCodons }

/-- Method `SequencePropertiesLength.getFields` (`"%i"` of the float
`mNCodons` truncates; the value is nonnegative, so the floor is exact). -/
def SequencePropertiesLength.getFields (self : SequencePropertiesLength) : List FieldVal :=
  [FieldVal.intF self.mLength, FieldVal.intF (Int.floor self.mNCodons)]

/-- Method `SequencePropertiesLength.getHeaders`. -/
def SequencePropertiesLength.getHeaders (_self : SequencePropertiesLength) : List String :=
  ["length", "ncodons"]

/-- State of `SequencePropertiesSequence` (adds no attribute of its own; it
reports the stored cleaned sequence). -/
structure SequencePropertiesSequence where
  mLength : Nat
  mTitle : String
  mSeqType : String
  mSequence : List Char

/-- Method `SequencePropertiesSequence.getFields`. -/
def SequencePropertiesSequence.getFields (self : SequencePropertiesSequence) : List FieldVal :=
  [FieldVal.strS (String.mk self.mSequence)]

/-- Method `SequencePropertiesSequence.getHeaders`. -/
def SequencePropertiesSequence.getHeaders (_self : SequencePropertiesSequence) : List String :=
  ["sequence"]

/-- State of `SequencePropertiesHid`.  Its `loadSequence` stores a base64
rendering of the md5 hash of the sequence; the hash itself is external
library code, so only the stored result is modelled here (the claims touch
only the field/header shape of this variant). -/
structure SequencePropertiesHid where
  mLength : Nat
  mTitle : String
  mSeqType : String
  mSequence : List Char
  mHid : String

/-- Method `SequencePropertiesHid.getFields`. -/
def SequencePropertiesHid.getFields (self : SequencePropertiesHid) : List FieldVal :=
  [FieldVal.strS self.mHid]

/-- Method `SequencePropertiesHid.getHeaders`. -/
def SequencePropertiesHid.getHeaders (_self : SequencePropertiesHid) : List String :=
  ["hid"]

/-! ## SequencePropertiesDegeneracy

`Genomics.IsStopCodon` and `Genomics.GetDegeneracy` live in the external
`Genomics` module; the embedding takes them as parameters (a stop predicate
and a partial map from a codon to an amino acid and three per-position
degeneracy classes, `none` standing for the `KeyError` the source
catches). -/

/-- Key set `{'A','C','G','T','X','N'}` of the per-position nucleotide count
dicts of `SequencePropertiesDegeneracy`. -/
def acgtxnKeys : List Char := ['A', 'C', 'G', 'T', 'X', 'N']

/-- Alphabet `Bio.Alphabet.IUPAC.extended_dna.letters` = `"GATCBDSW"`, the
key set of the degeneracy count dicts. -/
def extendedDna : List Char := ['G', 'A', 'T', 'C', 'B', 'D', 'S', 'W']

/-- State of `SequencePropertiesDegeneracy` (raw tallies; the derived
scalars such as `mNGC` are recomputed from these by `updateProperties`
whenever `getFields` is called). -/
structure SequencePropertiesDegeneracy where
  mLength : Nat
  mTitle : String
  mSeqType : String
  mSequence : List Char
  mNCodons : ℚ
  mNStopCodons : Nat
  mCounts : Fin 3 → Char → Nat
  mCountsDegeneracy : Fin 3 → Fin 5 → Char → Nat

/-- Constructor `SequencePropertiesDegeneracy.__init__`. -/
def SequencePropertiesDegeneracy.init : SequencePropertiesDegeneracy :=
  { mLength := 0, mTitle := "Unknown", mSeqType := "na", mSequence := []
    mNCodons := 0, mNStopCodons := 0
    mCounts := fun _ _ => 0, mCountsDegeneracy := fun _ _ _ => 0 }

/-- Increment of one per-position nucleotide count. -/
def bumpPos (f : Fin 3 → Char → Nat) (i : Fin 3) (c : Char) : Fin 3 → Char → Nat :=
  fun j x => if j = i ∧ x = c then f j x + 1 else f j x

/-- Increment of one degeneracy-table count. -/
def bumpDeg (f : Fin 3 → Fin 5 → Char → Nat) (i : Fin 3) (d : Fin 5) (c : Char) :
    Fin 3 → Fin 5 → Char → Nat :=
  fun j e x => if j = i ∧ e = d ∧ x = c then f j e x + 1 else f j e x

/-- The loop `for x in (0,1,2): self.mCounts[x][codon[x]] += 1`.  A
nucleotide outside `{A,C,G,T,X,N}` raises `KeyError`, which is NOT caught:
earlier increments of the same codon are retained and the error
propagates. -/
def degCountCodon (mc : Fin 3 → Char → Nat) (cd : Codon) :
    (Fin 3 → Char → Nat) × Option PyErr :=
  if cd.1 ∈ acgtxnKeys then
    let mc := bumpPos mc 0 cd.1
    if cd.2.1 ∈ acgtxnKeys then
      let mc := bumpPos mc 1 cd.2.1
      if cd.2.2 ∈ acgtxnKeys then (bumpPos mc 2 cd.2.2, none)
      else (mc, some PyErr.keyError)
    else (mc, some PyErr.keyError)
  else (mc, some PyErr.keyError)

/-- The degeneracy-table update for one non-stop codon, inside
`try: ... except KeyError: pass`: a position whose nucleotide is outside the
extended-DNA key set aborts the remaining positions but keeps the earlier
increments. -/
def degDegenUpdate (md : Fin 3 → Fin 5 → Char → Nat) (cd : Codon) (ds : Fin 3 → Fin 5) :
    Fin 3 → Fin 5 → Char → Nat :=
  if cd.1 ∈ extendedDna then
    let md := bumpDeg md 0 (ds 0) cd.1
    if cd.2.1 ∈ extendedDna then
      let md := bumpDeg md 1 (ds 1) cd.2.1
      if cd.2.2 ∈ extendedDna then bumpDeg md 2 (ds 2) cd.2.2
      else md
    else md
  else md

/-- The codon loop of `SequencePropertiesDegeneracy.loadSequence`. -/
def degLoop (isStop : Codon → Bool) (getDeg : Codon → Option (Char × (Fin 3 → Fin 5))) :
    SequencePropertiesDegeneracy → List Codon →
    SequencePropertiesDegeneracy × Option PyErr
  | st, [] => (st, none)
  | st, cd :: rest =>
    match degCountCodon st.mCounts cd with
    | (mc, some e) => ({ st with mCounts := mc }, some e)
    | (mc, none) =>
      let st1 : SequencePropertiesDegeneracy := { st with mCounts := mc }
      if isStop cd then
        degLoop isStop getDeg { st1 with mNStopCodons := st1.mNStopCodons + 1 } rest
      else
        match getDeg cd with
        | none => degLoop isStop getDeg st1 rest
        | some (_aa, ds) =>
          degLoop isStop getDeg
            { st1 with mCountsDegeneracy := degDegenUpdate st1.mCountsDegeneracy cd ds } rest

/-- Method `SequencePropertiesDegeneracy.loadSequence`.  Faithful to the
source: the inherited `SequencePropertiesLength.loadSequence` runs FIRST
(updating length, title, seqtype and the stored sequence), and only then is
the multiple-of-3 check performed on the raw parameter, so on failure those
inherited fields are already updated while all tallies are untouched. -/
def SequencePropertiesDegeneracy.loadSequence (isStop : Codon → Bool)
    (getDeg : Codon → Option (Char × (Fin 3 → Fin 5)))
    (self : SequencePropertiesDegeneracy) (in_sequence : List Char)
    (title seqtype : String) : SequencePropertiesDegeneracy × Option PyErr :=
  let cleaned := pyClean in_sequence
  let st := { self with
    mTitle := title
    mSeqType := seqtype
    mSequence := cleaned
    mLength := in_sequence.length
    mNCodons := if seqtype = "na" then (in_sequence.length : ℚ) / 3 else 0 }
  if in_sequence.length % 3 ≠ 0 then (st, some PyErr.valueError)
  else
    let s := in_sequence.map Char.toUpper
    let st := { st with
      mNStopCodons := 0
      mCounts := fun _ _ => 0
      mCountsDegeneracy := fun _ _ _ => 0 }
    degLoop isStop getDeg st (codonsOf s)

/-- Sum of one degeneracy dict, `sum(self.mCountsDegeneracy[x][y].values())`. -/
def degSum (st : SequencePropertiesDegeneracy) (x : Fin 3) (y : Fin 5) : Nat :=
  (extendedDna.map (st.mCountsDegeneracy x y)).sum

/-- Derived count `self.mNGC` computed by `updateProperties`. -/
def degNGC (self : SequencePropertiesDegeneracy) : Nat :=
  (([0, 1, 2] : List (Fin 3)).map (fun x => self.mCounts x 'C' + self.mCounts x 'G')).sum

/-- Derived counts `self.mNSites1D` … `self.mNSites4D` computed by
`updateProperties`. -/
def degNSites (self : SequencePropertiesDegeneracy) (d : Fin 5) : Nat :=
  (([0, 1, 2] : List (Fin 3)).map (fun x => degSum self x d)).sum

/-- Derived count `self.mNGC3` computed by `updateProperties`. -/
def degNGC3 (self : SequencePropertiesDegeneracy) : Nat :=
  self.mCounts 2 'C' + self.mCounts 2 'G'

/-- Derived counts `self.mN2DGC3`, `self.mN3DGC3`, `self.mN4DGC3`. -/
def degNDGC3at (self : SequencePropertiesDegeneracy) (d : Fin 5) : Nat :=
  self.mCountsDegeneracy 2 d 'C' + self.mCountsDegeneracy 2 d 'G'

/-- Derived count `self.mNSitesD3`. -/
def degNSitesD3 (self : SequencePropertiesDegeneracy) : Nat :=
  degSum self 2 2 + degSum self 2 3 + degSum self 2 4

/-- Derived count `self.mNDGC3`. -/
def degNDGC3 (self : SequencePropertiesDegeneracy) : Nat :=
  degNDGC3at self 2 + degNDGC3at self 3 + degNDGC3at self 4

/-- Ratio-or-"na" rendering used for the six guarded percentage fields (the
source renders them with `"%5.4f"`; the exact rational is kept here). -/
def degRatio (num den : Nat) : FieldVal :=
  if 0 < den then FieldVal.ratF ((num : ℚ) / (den : ℚ)) else FieldVal.naF

/-- Method `SequencePropertiesDegeneracy.getFields`, including the derived
scalars recomputed by `updateProperties`. -/
def SequencePropertiesDegeneracy.getFields (self : SequencePropertiesDegeneracy) :
    List FieldVal :=
  [FieldVal.intF self.mLength, FieldVal.intF (Int.floor self.mNCodons),
   FieldVal.intF self.mNStopCodons,
   FieldVal.intF (degNSites self 1), FieldVal.intF (degNSites self 2),
   FieldVal.intF (degNSites self 3), FieldVal.intF (degNSites self 4),
   FieldVal.intF (degNSitesD3 self), FieldVal.intF (degNGC self),
   FieldVal.intF (degNGC3 self),
   FieldVal.intF (degNDGC3 self), FieldVal.intF (degNDGC3at self 2),
   FieldVal.intF (degNDGC3at self 3), FieldVal.intF (degNDGC3at self 4),
   degRatio (degNGC self) self.mLength,
   (if 0 < self.mNCodons then FieldVal.ratF ((degNGC3 self : ℚ) / self.mNCodons)
    else FieldVal.naF),
   degRatio (degNDGC3 self) (degNSitesD3 self),
   degRatio (degNDGC3at self 2) (degNSites self 2),
   degRatio (degNDGC3at self 3) (degNSites self 3),
   degRatio (degNDGC3at self 4) (degNSites self 4)]

/-- Method `SequencePropertiesDegeneracy.getHeaders`. -/
def SequencePropertiesDegeneracy.getHeaders (_self : SequencePropertiesDegeneracy) :
    List String :=
  ["length", "ncodons", "nstops", "nsites1d", "nsites2d", "nsites3d", "nsites4d",
   "nsitesd3", "ngc", "ngc3", "ndgc3", "n2dgc3", "n3dgc3", "n4dgc3",
   "pgc", "pgc3", "pdgc3", "p2dgc3", "p3dgc3", "p4dgc3"]

/-! ## SequencePropertiesAA and SequencePropertiesAminoAcids -/

/-- Alphabet `Bio.Alphabet.IUPAC.extended_protein.letters`
= `"ACDEFGHIKLMNPQRSTVWYBXZJUO"` (26 letters). -/
def extendedProtein : List Char :=
  ['A', 'C', 'D', 'E', 'F', 'G', 'H', 'I', 'K', 'L', 'M', 'N', 'P',
   'Q', 'R', 'S', 'T', 'V', 'W', 'Y', 'B', 'X', 'Z', 'J', 'U', 'O']

/-- State of `SequencePropertiesAA` (translated composition; the constructor
also stores an unused `mReferenceUsage` and an `mEntropy` that no method of
this class reads, omitted here). -/
structure SequencePropertiesAA where
  mLength : Nat
  mTitle : String
  mSeqType : String
  mSequence : List Char
  mCountsAA : Char → Nat

/-- Constructor `SequencePropertiesAA.__init__`. -/
def SequencePropertiesAA.init : SequencePropertiesAA :=
  { mLength := 0, mTitle := "Unknown", mSeqType := "na", mSequence := []
    mCountsAA := fun _ => 0 }

/-- The codon loop of `SequencePropertiesAA.loadSequence`:
`self.mCountsAA[Genomics.MapCodon2AA(codon)] += 1` with no `try`, so an
amino acid outside the extended-protein key set raises `KeyError`. -/
def aaLoop (mapCodon2AA : Codon → Char) :
    (Char → Nat) → List Codon → (Char → Nat) × Option PyErr
  | f, [] => (f, none)
  | f, cd :: rest =>
    let aa := mapCodon2AA cd
    if aa ∈ extendedProtein then aaLoop mapCodon2AA (bump f aa) rest
    else (f, some PyErr.keyError)

/-- Method `SequencePropertiesAA.loadSequence` (`Genomics.MapCodon2AA` is
external and taken as a parameter).  The base-class load runs FIRST, then the
multiple-of-3 check on the raw parameter, then the counts are reset and the
codon loop runs over the raw (not uppercased) parameter. -/
def SequencePropertiesAA.loadSequence (mapCodon2AA : Codon → Char)
    (self : SequencePropertiesAA) (in_sequence : List Char) (title seqtype : String) :
    SequencePropertiesAA × Option PyErr :=
  let cleaned := pyClean in_sequence
  let st := { self with
    mTitle := title
    mSeqType := seqtype
    mSequence := cleaned
    mLength := cleaned.length }
  if in_sequence.length % 3 ≠ 0 then (st, some PyErr.valueError)
  else
    let st := { st with mCountsAA := fun _ => 0 }
    match aaLoop mapCodon2AA st.mCountsAA (codonsOf in_sequence) with
    | (f, e) => ({ st with mCountsAA := f }, e)

/-- Method `SequencePropertiesAA.getFields`.  The percentage loop divides by
the total count WITHOUT a zero guard, so a zero total raises
`ZeroDivisionError` (modelled as `none`). -/
def SequencePropertiesAA.getFields (self : SequencePropertiesAA) :
    Option (List FieldVal) :=
  let t : Nat := (extendedProtein.map self.mCountsAA).sum
  if t = 0 then none
  else
    some (extendedProtein.map (fun x => FieldVal.intF (self.mCountsAA x)) ++
      extendedProtein.map (fun x => FieldVal.ratF ((self.mCountsAA x : ℚ) / (t : ℚ))))

/-- Method `SequencePropertiesAA.getHeaders`. -/
def SequencePropertiesAA.getHeaders (_self : SequencePropertiesAA) : List String :=
  extendedProtein.map (fun x => String.push "n" x) ++
    extendedProtein.map (fun x => String.push "p" x)

/-- State of `SequencePropertiesAminoAcids` (composition of an amino-acid
sequence). -/
structure SequencePropertiesAminoAcids where
  mLength : Nat
  mTitle : String
  mSeqType : String
  mSequence : List Char
  mCountsAA : Char → Nat
  mOtherCounts : Nat

/-- Constructor `SequencePropertiesAminoAcids.__init__`. -/
def SequencePropertiesAminoAcids.init : SequencePropertiesAminoAcids :=
  { mLength := 0, mTitle := "Unknown", mSeqType := "na", mSequence := []
    mCountsAA := fun _ => 0, mOtherCounts := 0 }

/-- Body of the character loop of `SequencePropertiesAminoAcids.loadSequence`:
a dash is skipped, a key miss is tallied as other. -/
def aminoStep (st : SequencePropertiesAminoAcids) (aa : Char) :
    SequencePropertiesAminoAcids :=
  if aa = '-' then st
  else if aa ∈ extendedProtein then { st with mCountsAA := bump st.mCountsAA aa }
  else { st with mOtherCounts := st.mOtherCounts + 1 }

/-- Method `SequencePropertiesAminoAcids.loadSequence` (this variant DOES
reset its tallies; the loop runs over the raw parameter). -/
def SequencePropertiesAminoAcids.loadSequence (self : SequencePropertiesAminoAcids)
    (in_sequence : List Char) (title seqtype : String) : SequencePropertiesAminoAcids :=
  let cleaned := pyClean in_sequence
  let st := { self with
    mTitle := title
    mSeqType := seqtype
    mSequence := cleaned
    mLength := cleaned.length
    mCountsAA := fun _ => 0
    mOtherCounts := 0 }
  in_sequence.foldl aminoStep st

/-- Method `SequencePropertiesAminoAcids.getFields` (a zero total emits the
literal string `"0"` for each percentage column). -/
def SequencePropertiesAminoAcids.getFields (self : SequencePropertiesAminoAcids) :
    List FieldVal :=
  let t : Nat := (extendedProtein.map self.mCountsAA).sum
  extendedProtein.map (fun x => FieldVal.intF (self.mCountsAA x)) ++
    (if 0 < t then
      extendedProtein.map (fun x => FieldVal.ratF ((self.mCountsAA x : ℚ) / (t : ℚ)))
    else extendedProtein.map (fun _ => FieldVal.strS "0"))

/-- Method `SequencePropertiesAminoAcids.getHeaders`. -/
def SequencePropertiesAminoAcids.getHeaders (_self : SequencePropertiesAminoAcids) :
    List String :=
  extendedProtein.map (fun x => String.push "n" x) ++
    extendedProtein.map (fun x => String.push "p" x)

/-! ## SequencePropertiesCounts and SequencePropertiesEntropy -/

/-- State of `SequencePropertiesCounts` (generic fixed-alphabet counter). -/
structure SequencePropertiesCounts where
  mLength : Nat
  mTitle : String
  mSeqType : String
  mSequence : List Char
  mAlphabet : List Char
  mCounts : Char → Nat
  mCountsOthers : Nat

/-- Constructor `SequencePropertiesCounts.__init__(alphabet)`. -/
def SequencePropertiesCounts.init (alphabet : List Char) : SequencePropertiesCounts :=
  { mLength := 0, mTitle := "Unknown", mSeqType := "na", mSequence := []
    mAlphabet := alphabet, mCounts := fun _ => 0, mCountsOthers := 0 }

/-- Body of the character loop of `SequencePropertiesCounts.loadSequence`. -/
def countsStep (st : SequencePropertiesCounts) (na : Char) : SequencePropertiesCounts :=
  if na ∈ st.mAlphabet then { st with mCounts := bump st.mCounts na }
  else { st with mCountsOthers := st.mCountsOthers + 1 }

/-- Method `SequencePropertiesCounts.loadSequence`.  The source calls the
base-class load with only the sequence argument, so title and seqtype fall
back to the base defaults regardless of what the caller passed; this variant
resets its tallies before counting over the uppercased raw parameter. -/
def SequencePropertiesCounts.loadSequence (self : SequencePropertiesCounts)
    (in_sequence : List Char) (_title _seqtype : String) : SequencePropertiesCounts :=
  let cleaned := pyClean in_sequence
  let st := { self with
    mTitle := "Unknown"
    mSeqType := "na"
    mSequence := cleaned
    mLength := cleaned.length
    mCounts := fun _ => 0
    mCountsOthers := 0 }
  (in_sequence.map Char.toUpper).foldl countsStep st

/-- Method `SequencePropertiesCounts.addProperties`.  Faithful to the source
line `self.mCountsOthers += self.mCountsOthers`: the other-tally of `self` is
DOUBLED instead of receiving `other`'s tally. -/
def SequencePropertiesCounts.addProperties (self other : SequencePropertiesCounts) :
    SequencePropertiesCounts :=
  { self with
    mLength := self.mLength + other.mLength
    mCounts := fun c =>
      if c ∈ self.mAlphabet then self.mCounts c + other.mCounts c
      else self.mCounts c
    mCountsOthers := self.mCountsOthers + self.mCountsOthers }

/-- Method `SequencePropertiesCounts.getFields`. -/
def SequencePropertiesCounts.getFields (self : SequencePropertiesCounts) : List FieldVal :=
  let t : Nat := (self.mAlphabet.map self.mCounts).sum
  [FieldVal.intF self.mCountsOthers] ++
    self.mAlphabet.map (fun x => FieldVal.intF (self.mCounts x)) ++
    (if t = 0 then self.mAlphabet.map (fun _ => FieldVal.naF)
     else self.mAlphabet.map (fun x => FieldVal.ratF ((self.mCounts x : ℚ) / (t : ℚ))))

/-- Method `SequencePropertiesCounts.getHeaders`. -/
def SequencePropertiesCounts.getHeaders (self : SequencePropertiesCounts) : List String :=
  ["nUnk"] ++ self.mAlphabet.map (fun x => String.push "n" x) ++
    self.mAlphabet.map (fun x => String.push "p" x)

/-- State of `SequencePropertiesEntropy` (the entropy itself needs the
external `math.log`, taken as a parameter below). -/
structure SequencePropertiesEntropy where
  mLength : Nat
  mTitle : String
  mSeqType : String
  mSequence : List Char
  mAlphabet : List Char
  mCounts : Char → Nat
  mCountsOthers : Nat
  mEntropy : Option ℚ

/-- Method `SequencePropertiesEntropy.getEntropy` with `math.log` passed in
(`mPseudoCounts` is zero throughout the module); a zero total leaves the
entropy `None`. -/
def SequencePropertiesEntropy.getEntropy (log : ℚ → ℚ) (self : SequencePropertiesEntropy) :
    Option ℚ :=
  let v := self.mAlphabet.map self.mCounts
  let total : Nat := v.sum
  if total = 0 then none
  else
    some (v.foldl (fun e x =>
      let f : ℚ := (x : ℚ) / (total : ℚ)
      if 0 < f then e - f * log f else e) 0)

/-- Method `SequencePropertiesEntropy.getFields` (it calls `updateProperties`,
which recomputes the entropy from the current counts, then emits just that
one column; a `None` entropy renders as `"na"`). -/
def SequencePropertiesEntropy.getFields (log : ℚ → ℚ) (self : SequencePropertiesEntropy) :
    List FieldVal :=
  match SequencePropertiesEntropy.getEntropy log self with
  | some e => [FieldVal.ratF e]
  | none => [FieldVal.naF]

/-- Method `SequencePropertiesEntropy.getHeaders`. -/
def SequencePropertiesEntropy.getHeaders (_self : SequencePropertiesEntropy) : List String :=
  ["entropy"]

/-! ## SequencePropertiesCodons, SequencePropertiesCodonUsage,
SequencePropertiesCodonTranslator

The external `Genomics` module (not under the sources provided) supplies
`GeneticCodeAA`, `CountCodons` and `CalculateCodonFrequenciesFromCounts`;
they are modelled here from the specification's words. -/

/-- Modelled from the spec: the codon key set of the external genetic-code
tables (`Genomics.GeneticCodeAA` together with `Genomics.StopCodons`); the
spec's data model describes the codon table as a "mapping from the 64 codons
… to counts". -/
def allCodons : List Codon :=
  dnAlphabet.flatMap (fun a =>
    dnAlphabet.flatMap (fun b => dnAlphabet.map (fun c => (a, b, c))))

/-- Modelled from the spec: `Genomics.CountCodons` — repopulates the codon
table for exactly one in-frame sequence, every one of the 64 codons keeping
an entry (symbols outside the alphabet simply match no key). -/
def CountCodons (s : List Char) : List (Codon × Nat) :=
  allCodons.map (fun c => (c, (codonsOf s).count c))

/-- Modelled from the spec: `Genomics.CalculateCodonFrequenciesFromCounts` —
normalizes a codon-count table to frequencies over the same keys
(pseudo-counts are zero throughout this module); a zero total yields zero
frequencies. -/
def CalculateCodonFrequenciesFromCounts (counts : List (Codon × Nat)) :
    List (Codon × ℚ) :=
  let total : Nat := (counts.map (fun p => p.2)).sum
  if total = 0 then counts.map (fun p => (p.1, (0 : ℚ)))
  else counts.map (fun p => (p.1, (p.2 : ℚ) / (total : ℚ)))

/-- Boolean lexicographic order on codons, for `keys.sort()`. -/
def codonLe (a b : Codon) : Bool :=
  if a.1 ≠ b.1 then decide (a.1 < b.1)
  else if a.2.1 ≠ b.2.1 then decide (a.2.1 < b.2.1)
  else decide (a.2.2 ≤ b.2.2)

/-- Ordered insertion for the sort below. -/
def insertLe (x : Codon) : List Codon → List Codon
  | [] => [x]
  | y :: r => if codonLe x y then x :: y :: r else y :: insertLe x r

/-- Insertion sort implementing Python's `keys.sort()` on codon strings. -/
def sortCodons (l : List Codon) : List Codon := l.foldr insertLe []

/-- State of `SequencePropertiesCodons`. -/
structure SequencePropertiesCodons where
  mLength : Nat
  mTitle : String
  mSeqType : String
  mSequence : List Char
  mNCodons : ℚ
  mCodonCounts : List (Codon × Nat)

/-- Constructor `SequencePropertiesCodons.__init__` (keys of
`Genomics.GeneticCodeAA`, all zero). -/
def SequencePropertiesCodons.init : SequencePropertiesCodons :=
  { mLength := 0, mTitle := "Unknown", mSeqType := "na", mSequence := []
    mNCodons := 0, mCodonCounts := allCodons.map (fun c => (c, 0)) }

/-- Method `SequencePropertiesCodons.loadSequence`.  Unlike the degeneracy
and AA variants, the multiple-of-3 check here comes FIRST, before any
mutation, so on failure the accumulator is completely unchanged. -/
def SequencePropertiesCodons.loadSequence (self : SequencePropertiesCodons)
    (in_sequence : List Char) (title seqtype : String) :
    SequencePropertiesCodons × Option PyErr :=
  if in_sequence.length % 3 ≠ 0 then (self, some PyErr.valueError)
  else
    let cleaned := pyClean in_sequence
    ({ self with
      mTitle := title
      mSeqType := seqtype
      mSequence := cleaned
      mLength := in_sequence.length
      mNCodons := if seqtype = "na" then (in_sequence.length : ℚ) / 3 else 0
      mCodonCounts := CountCodons (in_sequence.map Char.toUpper) }, none)

/-- Method `SequencePropertiesCodons.addProperties` (a key missing from
`self` is first created at zero, so the table addition is total). -/
def SequencePropertiesCodons.addProperties (self other : SequencePropertiesCodons) :
    SequencePropertiesCodons :=
  { self with
    mLength := self.mLength + other.mLength
    mNCodons := self.mNCodons + other.mNCodons
    mCodonCounts :=
      other.mCodonCounts.foldl (fun acc p =>
        if (acc.lookup p.1).isSome then
          acc.map (fun q => if q.1 = p.1 then (q.1, q.2 + p.2) else q)
        else acc ++ [(p.1, p.2)]) self.mCodonCounts }

/-- Method `SequencePropertiesCodons.getFields`: length fields, then one
count and one frequency column per sorted codon key; with a nonempty key set
and a zero total the frequency loop raises `ZeroDivisionError` (`none`). -/
def SequencePropertiesCodons.getFields (self : SequencePropertiesCodons) :
    Option (List FieldVal) :=
  let keys := sortCodons (self.mCodonCounts.map (fun p => p.1))
  let cnt := fun c => (self.mCodonCounts.lookup c).getD 0
  let t : Nat := (keys.map cnt).sum
  if t = 0 ∧ keys ≠ [] then none
  else
    some ([FieldVal.intF self.mLength, FieldVal.intF (Int.floor self.mNCodons)] ++
      keys.map (fun k => FieldVal.intF (cnt k)) ++
      keys.map (fun k => FieldVal.ratF ((cnt k : ℚ) / (t : ℚ))))

/-- Codon rendered as the tail of a header, `"n%s" % key` etc. -/
def codonHeader (pre : String) (k : Codon) : String :=
  String.push (String.push (String.push pre k.1) k.2.1) k.2.2

/-- Method `SequencePropertiesCodons.getHeaders`. -/
def SequencePropertiesCodons.getHeaders (self : SequencePropertiesCodons) : List String :=
  let keys := sortCodons (self.mCodonCounts.map (fun p => p.1))
  ["length", "ncodons"] ++ keys.map (codonHeader "n") ++ keys.map (codonHeader "p")

/-- State of `SequencePropertiesCodonUsage`. -/
structure SequencePropertiesCodonUsage where
  mLength : Nat
  mTitle : String
  mSeqType : String
  mSequence : List Char
  mNCodons : ℚ
  mCodonCounts : List (Codon × Nat)
  mCodonFrequencies : List (Codon × ℚ)

/-- Constructor `SequencePropertiesCodonUsage.__init__` (frequencies zeroed
over the genetic-code keys plus the stop codons). -/
def SequencePropertiesCodonUsage.init : SequencePropertiesCodonUsage :=
  { mLength := 0, mTitle := "Unknown", mSeqType := "na", mSequence := []
    mNCodons := 0, mCodonCounts := allCodons.map (fun c => (c, 0))
    mCodonFrequencies := allCodons.map (fun c => (c, (0 : ℚ))) }

/-- Method `loadSequence` inherited unchanged from
`SequencePropertiesCodons` (the frequency table is only refreshed by
`updateProperties`). -/
def SequencePropertiesCodonUsage.loadSequence (self : SequencePropertiesCodonUsage)
    (in_sequence : List Char) (title seqtype : String) :
    SequencePropertiesCodonUsage × Option PyErr :=
  if in_sequence.length % 3 ≠ 0 then (self, some PyErr.valueError)
  else
    let cleaned := pyClean in_sequence
    ({ self with
      mTitle := title
      mSeqType := seqtype
      mSequence := cleaned
      mLength := in_sequence.length
      mNCodons := if seqtype = "na" then (in_sequence.length : ℚ) / 3 else 0
      mCodonCounts := CountCodons (in_sequence.map Char.toUpper) }, none)

/-- Method `SequencePropertiesCodonUsage.updateProperties`. -/
def SequencePropertiesCodonUsage.updateProperties (self : SequencePropertiesCodonUsage) :
    SequencePropertiesCodonUsage :=
  { self with mCodonFrequencies := CalculateCodonFrequenciesFromCounts self.mCodonCounts }

/-- Method `SequencePropertiesCodonUsage.getFields` (the embedded base-class
call dispatches to `updateProperties` first, so the frequencies reported are
the freshly recomputed ones). -/
def SequencePropertiesCodonUsage.getFields (self : SequencePropertiesCodonUsage) :
    List FieldVal :=
  let st := SequencePropertiesCodonUsage.updateProperties self
  let keys := sortCodons (st.mCodonFrequencies.map (fun p => p.1))
  keys.map (fun k => FieldVal.ratF ((st.mCodonFrequencies.lookup k).getD 0))

/-- Method `SequencePropertiesCodonUsage.getHeaders` (headers come from the
CURRENT frequency table, without an update). -/
def SequencePropertiesCodonUsage.getHeaders (self : SequencePropertiesCodonUsage) :
    List String :=
  let keys := sortCodons (self.mCodonFrequencies.map (fun p => p.1))
  keys.map (codonHeader "r")

/-- State of `SequencePropertiesCodonTranslator`; after a successful load
`mSequence` holds the RAW parameter (the subclass overwrites the cleaned
sequence stored by the inherited load). -/
structure SequencePropertiesCodonTranslator where
  mLength : Nat
  mTitle : String
  mSeqType : String
  mSequence : List Char
  mNCodons : ℚ
  mCodonCounts : List (Codon × Nat)
  mCodonFrequencies : List (Codon × ℚ)

/-- Constructor `SequencePropertiesCodonTranslator.__init__`. -/
def SequencePropertiesCodonTranslator.init : SequencePropertiesCodonTranslator :=
  { mLength := 0, mTitle := "Unknown", mSeqType := "na", mSequence := []
    mNCodons := 0, mCodonCounts := allCodons.map (fun c => (c, 0))
    mCodonFrequencies := allCodons.map (fun c => (c, (0 : ℚ))) }

/-- Method `SequencePropertiesCodonTranslator.loadSequence`: the inherited
codon load (whose multiple-of-3 failure propagates before the subclass line
runs), then `self.mSequence = sequence` stores the raw parameter. -/
def SequencePropertiesCodonTranslator.loadSequence
    (self : SequencePropertiesCodonTranslator) (in_sequence : List Char)
    (title seqtype : String) : SequencePropertiesCodonTranslator × Option PyErr :=
  if in_sequence.length % 3 ≠ 0 then (self, some PyErr.valueError)
  else
    ({ self with
      mTitle := title
      mSeqType := seqtype
      mSequence := in_sequence
      mLength := in_sequence.length
      mNCodons := if seqtype = "na" then (in_sequence.length : ℚ) / 3 else 0
      mCodonCounts := CountCodons (in_sequence.map Char.toUpper) }, none)

/-- Three-character slices `self.mSequence[x:x+3]` for
`x in range(0, len, 3)`; a trailing partial slice is kept (it can never be a
dict key, so it reports frequency zero). -/
def chunks3 : List Char → List (List Char)
  | a :: b :: c :: r => [a, b, c] :: chunks3 r
  | [] => []
  | r => [r]

/-- Method `SequencePropertiesCodonTranslator.getFields`: the base-class
`getFields` dispatches to `updateProperties` (refreshing the frequency
table), then one column per codon slice of the stored sequence is emitted,
`"%i" % (v * 100)` of the slice's frequency (zero when the slice is not a
key). -/
def SequencePropertiesCodonTranslator.getFields
    (self : SequencePropertiesCodonTranslator) : List FieldVal :=
  let freqs := CalculateCodonFrequenciesFromCounts self.mCodonCounts
  (chunks3 self.mSequence).map (fun ch =>
    let v : ℚ :=
      match ch with
      | [a, b, c] => (freqs.lookup (a, b, c)).getD 0
      | _ => 0
    FieldVal.intF (Int.floor (v * 100)))

/-- Method `SequencePropertiesCodonTranslator.getHeaders`: a single column. -/
def SequencePropertiesCodonTranslator.getHeaders
    (_self : SequencePropertiesCodonTranslator) : List String :=
  ["tsequence"]

/-! ## Characterization lemmas for the NA counting loop -/

lemma naStepGCAT_mCountsGC (st : SequencePropertiesNA) (a : Char) :
    (naStepGCAT st a).mCountsGC =
      st.mCountsGC + (if a = 'G' ∨ a = 'C' then 1 else 0) := by
  unfold naStepGCAT
  by_cases h1 : a = 'G' ∨ a = 'C'
  · simp [h1]
  · rw [if_neg h1, if_neg h1]
    split <;> rfl

lemma naStepGCAT_mCountsAT (st : SequencePropertiesNA) (a : Char) :
    (naStepGCAT st a).mCountsAT =
      st.mCountsAT + (if ¬(a = 'G' ∨ a = 'C') ∧ (a = 'A' ∨ a = 'T') then 1 else 0) := by
  unfold naStepGCAT
  by_cases h1 : a = 'G' ∨ a = 'C' <;> by_cases h3 : a = 'A' ∨ a = 'T' <;>
    simp [h1, h3]

lemma naStepGCAT_rest (st : SequencePropertiesNA) (a : Char) :
    (naStepGCAT st a).mCountsOthers = st.mCountsOthers ∧
      (naStepGCAT st a).mCountsNA = st.mCountsNA ∧
      (naStepGCAT st a).mLength = st.mLength ∧
      (naStepGCAT st a).mNCodons = st.mNCodons := by
  unfold naStepGCAT
  split_ifs <;> exact ⟨rfl, rfl, rfl, rfl⟩

lemma naStepDict_mCountsOthers (st : SequencePropertiesNA) (a : Char) :
    (naStepDict st a).mCountsOthers =
      st.mCountsOthers + (if a ∈ naAlphabet then 0 else 1) := by
  unfold naStepDict
  by_cases h2 : a ∈ naAlphabet <;> simp [h2]

lemma naStepDict_mCountsNA (st : SequencePropertiesNA) (a c : Char) :
    (naStepDict st a).mCountsNA c =
      st.mCountsNA c + (if a ∈ naAlphabet ∧ c = a then 1 else 0) := by
  unfold naStepDict bump
  by_cases h2 : a ∈ naAlphabet
  · rw [if_pos h2]
    by_cases hca : c = a <;> simp [hca, h2]
  · rw [if_neg h2]
    simp [h2]

lemma naStepDict_rest (st : SequencePropertiesNA) (a : Char) :
    (naStepDict st a).mCountsGC = st.mCountsGC ∧
      (naStepDict st a).mCountsAT = st.mCountsAT ∧
      (naStepDict st a).mLength = st.mLength ∧
      (naStepDict st a).mNCodons = st.mNCodons := by
  unfold naStepDict
  split <;> exact ⟨rfl, rfl, rfl, rfl⟩

lemma naStep_mCountsGC (st : SequencePropertiesNA) (a : Char) :
    (naStep st a).mCountsGC =
      st.mCountsGC + (if a = 'G' ∨ a = 'C' then 1 else 0) := by
  unfold naStep
  rw [(naStepDict_rest _ _).1, naStepGCAT_mCountsGC]

lemma naStep_mCountsAT (st : SequencePropertiesNA) (a : Char) :
    (naStep st a).mCountsAT =
      st.mCountsAT + (if ¬(a = 'G' ∨ a = 'C') ∧ (a = 'A' ∨ a = 'T') then 1 else 0) := by
  unfold naStep
  rw [(naStepDict_rest _ _).2.1, naStepGCAT_mCountsAT]

lemma naStep_mCountsOthers (st : SequencePropertiesNA) (a : Char) :
    (naStep st a).mCountsOthers =
      st.mCountsOthers + (if a ∈ naAlphabet then 0 else 1) := by
  unfold naStep
  rw [naStepDict_mCountsOthers, (naStepGCAT_rest _ _).1]

lemma naStep_mCountsNA (st : SequencePropertiesNA) (a c : Char) :
    (naStep st a).mCountsNA c =
      st.mCountsNA c + (if a ∈ naAlphabet ∧ c = a then 1 else 0) := by
  unfold naStep
  rw [naStepDict_mCountsNA, (naStepGCAT_rest _ _).2.1]

lemma naStep_rest (st : SequencePropertiesNA) (a : Char) :
    (naStep st a).mLength = st.mLength ∧ (naStep st a).mNCodons = st.mNCodons := by
  unfold naStep
  exact ⟨((naStepDict_rest _ _).2.2.1).trans (naStepGCAT_rest _ _).2.2.1,
    ((naStepDict_rest _ _).2.2.2).trans (naStepGCAT_rest _ _).2.2.2⟩

lemma foldl_naStep_mCountsGC (l : List Char) (st : SequencePropertiesNA) :
    (l.foldl naStep st).mCountsGC =
      st.mCountsGC + l.countP (fun c => decide (c = 'G' ∨ c = 'C')) := by
  induction l generalizing st with
  | nil => simp
  | cons a l ih =>
    rw [List.foldl_cons, ih, naStep_mCountsGC, List.countP_cons]
    simp only [decide_eq_true_eq]
    by_cases h : a = 'G' ∨ a = 'C' <;> simp [h] <;> omega

lemma foldl_naStep_mCountsAT (l : List Char) (st : SequencePropertiesNA) :
    (l.foldl naStep st).mCountsAT =
      st.mCountsAT + l.countP (fun c => decide (¬(c = 'G' ∨ c = 'C') ∧ (c = 'A' ∨ c = 'T'))) := by
  induction l generalizing st with
  | nil => simp
  | cons a l ih =>
    rw [List.foldl_cons, ih, naStep_mCountsAT, List.countP_cons]
    simp only [decide_eq_true_eq]
    by_cases h : ¬(a = 'G' ∨ a = 'C') ∧ (a = 'A' ∨ a = 'T') <;> simp [h] <;> omega

lemma foldl_naStep_mCountsOthers (l : List Char) (st : SequencePropertiesNA) :
    (l.foldl naStep st).mCountsOthers =
      st.mCountsOthers + l.countP (fun c => decide (c ∉ naAlphabet)) := by
  induction l generalizing st with
  | nil => simp
  | cons a l ih =>
    rw [List.foldl_cons, ih, naStep_mCountsOthers, List.countP_cons]
    simp only [decide_eq_true_eq]
    by_cases h : a ∈ naAlphabet <;> simp [h] <;> omega

lemma foldl_naStep_mCountsNA (l : List Char) (st : SequencePropertiesNA) (c : Char) :
    (l.foldl naStep st).mCountsNA c =
      st.mCountsNA c + (if c ∈ naAlphabet then l.count c else 0) := by
  induction l generalizing st with
  | nil => simp
  | cons a l ih =>
    rw [List.foldl_cons, ih, naStep_mCountsNA, List.count_cons]
    by_cases hc : c ∈ naAlphabet
    · by_cases hca : c = a
      · cases hca
        simp [hc]
        omega
      · have hac : ¬(a == c) = true := by
          simp
          exact fun h => hca h.symm
        simp [hc, hca, hac]
    · have hna : ¬(a ∈ naAlphabet ∧ c = a) := by
        rintro ⟨ha, rfl⟩
        exact hc ha
      simp [hc, hna]

lemma foldl_naStep_rest (l : List Char) (st : SequencePropertiesNA) :
    (l.foldl naStep st).mLength = st.mLength ∧
      (l.foldl naStep st).mNCodons = st.mNCodons := by
  induction l generalizing st with
  | nil => exact ⟨rfl, rfl⟩
  | cons a l ih =>
    rw [List.foldl_cons]
    rcases ih (naStep st a) with ⟨h1, h2⟩
    rcases naStep_rest st a with ⟨g1, g2⟩
    exact ⟨h1.trans g1, h2.trans g2⟩

/-! ## C1 -/

/-- C1 (counterexample): the claim fails for the dinucleotide kind.  With the
in-frame sequences S1 = "AAC" and S2 = "GTT" (lengths 3 and 3), merging
separately loaded `SequencePropertiesDN` accumulators gives a CG dinucleotide
tally of 0, while a fresh accumulator loaded with the concatenation "AACGTT"
counts the boundary dinucleotide CG once. -/
theorem c1_dinucleotide_merge_differs_from_concat :
    ((SequencePropertiesDN.init.loadSequence "AAC".toList "Unknown" "na").addProperties
        (SequencePropertiesDN.init.loadSequence "GTT".toList "Unknown" "na")).mCountsDinuc
      ('C', 'G') = 0 ∧
    (SequencePropertiesDN.init.loadSequence "AACGTT".toList "Unknown" "na").mCountsDinuc
      ('C', 'G') = 1 := by
  decide

/-- C1 (amended): for the nucleotide accumulator `SequencePropertiesNA` and
in-frame sequences S1, S2 (lengths multiples of 3 — this keeps each
`mNCodons = len/3` an integer, so the source's double division is exact and
the rational model coincides with the program), merging two freshly loaded
accumulators via `addProperties` yields exactly the raw tallies (length,
codon count, GC, AT, other, and every per-symbol count) of a single fresh
accumulator loaded with the concatenation S1‖S2; the dinucleotide-window,
CpG and generic-counts kinds do not satisfy the original claim. -/
theorem c1_na_merge_matches_concat_load (s1 s2 : List Char)
    (hs1 : s1.length % 3 = 0) (hs2 : s2.length % 3 = 0) :
    ((SequencePropertiesNA.init.loadSequence s1 "Unknown" "na").addProperties
        (SequencePropertiesNA.init.loadSequence s2 "Unknown" "na")).mLength =
      (SequencePropertiesNA.init.loadSequence (s1 ++ s2) "Unknown" "na").mLength ∧
    ((SequencePropertiesNA.init.loadSequence s1 "Unknown" "na").addProperties
        (SequencePropertiesNA.init.loadSequence s2 "Unknown" "na")).mNCodons =
      (SequencePropertiesNA.init.loadSequence (s1 ++ s2) "Unknown" "na").mNCodons ∧
    ((SequencePropertiesNA.init.loadSequence s1 "Unknown" "na").addProperties
        (SequencePropertiesNA.init.loadSequence s2 "Unknown" "na")).mCountsGC =
      (SequencePropertiesNA.init.loadSequence (s1 ++ s2) "Unknown" "na").mCountsGC ∧
    ((SequencePropertiesNA.init.loadSequence s1 "Unknown" "na").addProperties
        (SequencePropertiesNA.init.loadSequence s2 "Unknown" "na")).mCountsAT =
      (SequencePropertiesNA.init.loadSequence (s1 ++ s2) "Unknown" "na").mCountsAT ∧
    ((SequencePropertiesNA.init.loadSequence s1 "Unknown" "na").addProperties
        (SequencePropertiesNA.init.loadSequence s2 "Unknown" "na")).mCountsOthers =
      (SequencePropertiesNA.init.loadSequence (s1 ++ s2) "Unknown" "na").mCountsOthers ∧
    ∀ c : Char,
      ((SequencePropertiesNA.init.loadSequence s1 "Unknown" "na").addProperties
          (SequencePropertiesNA.init.loadSequence s2 "Unknown" "na")).mCountsNA c =
        (SequencePropertiesNA.init.loadSequence (s1 ++ s2) "Unknown" "na").mCountsNA c := by
  unfold SequencePropertiesNA.loadSequence SequencePropertiesNA.addProperties
  simp only [foldl_naStep_mCountsGC, foldl_naStep_mCountsAT, foldl_naStep_mCountsOthers,
    foldl_naStep_mCountsNA, (foldl_naStep_rest _ _).1, (foldl_naStep_rest _ _).2,
    List.map_append, List.countP_append, List.count_append, SequencePropertiesNA.init,
    List.length_append]
  refine ⟨trivial, ?_, by omega, by omega, by omega, ?_⟩
  · simp only [if_true]
    push_cast
    ring
  · intro c
    by_cases hc : c ∈ naAlphabet <;> simp [hc]

/-- C1 (witness): the in-frame hypotheses hold at S1 = "AAC" and S2 = "GTT"
(lengths 3 and 3), where merging the freshly loaded accumulators matches the
concatenation load — shown on the GC tally (2 on both sides) and on the
per-symbol C count. -/
theorem c1_na_merge_witness :
    "AAC".toList.length % 3 = 0 ∧ "GTT".toList.length % 3 = 0 ∧
    ((SequencePropertiesNA.init.loadSequence "AAC".toList "Unknown" "na").addProperties
        (SequencePropertiesNA.init.loadSequence "GTT".toList "Unknown" "na")).mCountsGC =
      (SequencePropertiesNA.init.loadSequence ("AAC".toList ++ "GTT".toList) "Unknown"
          "na").mCountsGC ∧
    ((SequencePropertiesNA.init.loadSequence "AAC".toList "Unknown" "na").addProperties
        (SequencePropertiesNA.init.loadSequence "GTT".toList "Unknown" "na")).mCountsGC
      = 2 ∧
    ((SequencePropertiesNA.init.loadSequence "AAC".toList "Unknown" "na").addProperties
        (SequencePropertiesNA.init.loadSequence "GTT".toList "Unknown" "na")).mCountsNA
      'C' =
      (SequencePropertiesNA.init.loadSequence ("AAC".toList ++ "GTT".toList) "Unknown"
          "na").mCountsNA 'C' := by
  obtain ⟨-, -, hGC, -, -, hNA⟩ :=
    c1_na_merge_matches_concat_load "AAC".toList "GTT".toList (by decide) (by decide)
  exact ⟨by decide, by decide, hGC, by decide, hNA 'C'⟩

/-! ## C2 -/

/-- C2: `loadSequence` does NOT have overwrite semantics.  Loading "G" and
then "A" into a `SequencePropertiesNA` accumulator leaves `mCountsGC = 1`
(only the per-symbol dict is reset, not the GC/AT/other scalars), whereas a
fresh accumulator loaded with "A" has `mCountsGC = 0`; similarly
`SequencePropertiesDN.loadSequence` resets nothing, so loading "AC" twice
leaves an AC window tally of 2 against 1 for a fresh load. -/
theorem c2_loadSequence_not_overwrite :
    ((SequencePropertiesNA.init.loadSequence ['G'] "Unknown" "na").loadSequence
        ['A'] "Unknown" "na").mCountsGC = 1 ∧
    (SequencePropertiesNA.init.loadSequence ['A'] "Unknown" "na").mCountsGC = 0 ∧
    ((SequencePropertiesDN.init.loadSequence ['A', 'C'] "Unknown" "na").loadSequence
        ['A', 'C'] "Unknown" "na").mCountsDinuc ('A', 'C') = 2 ∧
    (SequencePropertiesDN.init.loadSequence ['A', 'C'] "Unknown" "na").mCountsDinuc
      ('A', 'C') = 1 := by
  decide

/-! ## C8 -/

/-- C8: loading a fresh CpG accumulator with "CGCGCG" yields an overlapping
CG dinucleotide tally of 3, C and G symbol tallies of 3 each, a stored length
of 6, a CpG density of exactly 1 = 3/(6/2) and a CpG observed/expected of
exactly 2 = 3/((3*3)/6). -/
theorem c8_cpg_cgcgcg :
    (SequencePropertiesCpg.init.loadSequence ['C', 'G', 'C', 'G', 'C', 'G'] "Unknown" "na").mCountsDinuc
      ('C', 'G') = 3 ∧
    (SequencePropertiesCpg.init.loadSequence ['C', 'G', 'C', 'G', 'C', 'G'] "Unknown" "na").mCountsNA
      'C' = 3 ∧
    (SequencePropertiesCpg.init.loadSequence ['C', 'G', 'C', 'G', 'C', 'G'] "Unknown" "na").mCountsNA
      'G' = 3 ∧
    (SequencePropertiesCpg.init.loadSequence ['C', 'G', 'C', 'G', 'C', 'G'] "Unknown" "na").mLength = 6 ∧
    (SequencePropertiesCpg.init.loadSequence ['C', 'G', 'C', 'G', 'C', 'G'] "Unknown" "na").mCpG_density
      = 1 ∧
    (SequencePropertiesCpg.init.loadSequence ['C', 'G', 'C', 'G', 'C', 'G'] "Unknown" "na").mCpG_ObsExp
      = 2 := by
  have h1 : (SequencePropertiesCpg.init.loadRaw ['C', 'G', 'C', 'G', 'C', 'G'] "Unknown" "na").mCountsDinuc
      ('C', 'G') = 3 := by decide
  have h2 : (SequencePropertiesCpg.init.loadRaw ['C', 'G', 'C', 'G', 'C', 'G'] "Unknown" "na").mCountsNA
      'C' = 3 := by decide
  have h3 : (SequencePropertiesCpg.init.loadRaw ['C', 'G', 'C', 'G', 'C', 'G'] "Unknown" "na").mCountsNA
      'G' = 3 := by decide
  have h4 : (SequencePropertiesCpg.init.loadRaw ['C', 'G', 'C', 'G', 'C', 'G'] "Unknown" "na").mLength
      = 6 := by decide
  simp only [SequencePropertiesCpg.loadSequence, h1, h2, h3, h4]
  norm_num
  exact ⟨h1, h2, h3⟩

/-! ## C9 -/

/-- C9 (counterexample): the claim predicts that '!' is retained, so that
loading "A!C" stores a sequence of length 3; the code's regular expression
`[ -.]` denotes the ASCII range from space to dot, so '!' is stripped: the
stored sequence is "AC" with length 2. -/
theorem c9_bang_is_stripped :
    (SequenceProperties.init.loadSequence ['A', '!', 'C'] "Unknown" "na").mLength = 2 ∧
    (SequenceProperties.init.loadSequence ['A', '!', 'C'] "Unknown" "na").mSequence =
      ['A', 'C'] := by
  decide

/-- C9 (amended): `loadSequence` strips exactly the characters of the ASCII
range from space (0x20) to dot (0x2E) — which contains '!', '+' and ',' as
well as space, '-' and '.' — and upper-cases the remainder; characters
outside that range, such as '/', are retained and counted toward the stored
length. -/
theorem c9_strip_range_and_upper :
    (∀ (s : List Char) (title seqtype : String),
      (SequenceProperties.init.loadSequence s title seqtype).mLength =
          s.countP (fun c => !(' ' ≤ c && c ≤ '.')) ∧
        (SequenceProperties.init.loadSequence s title seqtype).mSequence =
          (s.filter (fun c => !(' ' ≤ c && c ≤ '.'))).map Char.toUpper) ∧
    (SequenceProperties.init.loadSequence ['a', ',', 'b', '+', 'c'] "Unknown" "na").mSequence
      = ['A', 'B', 'C'] ∧
    (SequenceProperties.init.loadSequence ['A', '/', 'C'] "Unknown" "na").mSequence =
      ['A', '/', 'C'] := by
  refine ⟨fun s title seqtype => ⟨?_, by rfl⟩, by decide, by decide⟩
  show (pyClean s).length = _
  rw [pyClean, List.length_map, ← List.countP_eq_length_filter]
  rfl

/-! ## C10 -/

lemma gapsStep_eq (g : List Char) (w : Bool) (n a b : Nat) (c : Char) :
    gapsStep g (w, n, a, b) c =
      if c ∈ g then (true, n + 1, if !w then a + 1 else a, b)
      else (false, n, a, if w then b + 1 else b) := by
  unfold gapsStep
  by_cases h : c ∈ g <;> simp [h]

lemma foldl_gapsStep_ngaps (g : List Char) (l : List Char) (w : Bool) (n a b : Nat) :
    (l.foldl (gapsStep g) (w, n, a, b)).2.1 = n + l.countP (fun c => decide (c ∈ g)) := by
  induction l generalizing w n a b with
  | nil => simp
  | cons c l ih =>
    rw [List.foldl_cons, List.countP_cons, gapsStep_eq]
    by_cases h : c ∈ g
    · rw [if_pos h, ih]
      simp [h]
      omega
    · rw [if_neg h, ih]
      simp [h]

/-- C10: `SequencePropertiesGaps.loadSequence` reads `sequence[0]` before the
loop, so on the empty input it raises `IndexError` instead of loading zero
gap counts; on every non-empty input it completes without error and sets
`ngaps` to the number of gap characters of the raw input. -/
theorem c10_gaps_empty_index_error (st : SequencePropertiesGaps) (s : List Char)
    (title seqtype : String) :
    (s ≠ [] →
      (st.loadSequence s title seqtype).2 = none ∧
        (st.loadSequence s title seqtype).1.ngaps =
          s.countP (fun c => decide (c ∈ st.gap_chars))) ∧
    (st.loadSequence [] title seqtype).2 = some PyErr.indexError := by
  constructor
  · intro hs
    obtain ⟨c0, rest, rfl⟩ := List.exists_cons_of_ne_nil hs
    unfold SequencePropertiesGaps.loadSequence
    refine ⟨rfl, ?_⟩
    show (List.foldl (gapsStep st.gap_chars) _ _).2.1 = _
    rw [foldl_gapsStep_ngaps, Nat.zero_add]
  · rfl

/-- C10 (witness): loading "xAnB" into a fresh gap accumulator succeeds with
`ngaps = 2`, and the empty input raises `IndexError`. -/
theorem c10_gaps_witness :
    (SequencePropertiesGaps.init.loadSequence "xAnB".toList "Unknown" "na").2 = none ∧
    (SequencePropertiesGaps.init.loadSequence "xAnB".toList "Unknown" "na").1.ngaps = 2 ∧
    (SequencePropertiesGaps.init.loadSequence [] "Unknown" "na").2 =
      some PyErr.indexError := by
  obtain ⟨h, he⟩ :=
    c10_gaps_empty_index_error SequencePropertiesGaps.init "xAnB".toList "Unknown" "na"
  obtain ⟨h1, h2⟩ := h (by decide)
  exact ⟨h1, by rw [h2]; decide, he⟩

/-! ## C7 -/

/-- C7 (counterexample): the claim fails for the degeneracy accumulator.
Loading the in-frame sequence "ARA" (the IUPAC ambiguity code R at codon
position 2) raises `KeyError` from `self.mCounts[x][codon[x]] += 1`, which
is not caught, instead of completing with R tallied as "other". -/
theorem c7_degeneracy_raises_on_unknown_symbol :
    (SequencePropertiesDegeneracy.loadSequence (fun _ => false) (fun _ => none)
        SequencePropertiesDegeneracy.init "ARA".toList "Unknown" "na").2 =
      some PyErr.keyError := by
  decide

/-- C7 (amended): for the per-symbol accumulators the claim holds — shown
here for `SequencePropertiesNA`: `loadSequence` always completes, a symbol
outside the fixed alphabet GATCN is tallied under `mCountsOthers`, counts
toward the stored length, and mutates no fixed-alphabet bucket — but the
degeneracy accumulator instead raises an uncaught `KeyError` when a codon
position holds a symbol outside ACGTXN. -/
theorem c7_unknown_symbol_tallied_as_other (s : List Char) :
    (SequencePropertiesNA.init.loadSequence s "Unknown" "na").mLength = s.length ∧
    (SequencePropertiesNA.init.loadSequence s "Unknown" "na").mCountsOthers =
      (s.map Char.toUpper).countP (fun c => decide (c ∉ naAlphabet)) ∧
    (∀ c, c ∈ naAlphabet →
      (SequencePropertiesNA.init.loadSequence s "Unknown" "na").mCountsNA c =
        (s.map Char.toUpper).count c) ∧
    (∀ c, c ∉ naAlphabet →
      (SequencePropertiesNA.init.loadSequence s "Unknown" "na").mCountsNA c = 0) := by
  unfold SequencePropertiesNA.loadSequence
  refine ⟨(foldl_naStep_rest _ _).1, ?_, ?_, ?_⟩
  · rw [foldl_naStep_mCountsOthers]
    simp [SequencePropertiesNA.init]
  · intro c hc
    rw [foldl_naStep_mCountsNA]
    simp [hc]
  · intro c hc
    rw [foldl_naStep_mCountsNA]
    simp [hc]

/-- C7 (witness): with the input "ARA", the NA accumulator completes with R
counted once as "other", counting toward the length 3, a count of 2 for A,
and no bucket for R. -/
theorem c7_unknown_symbol_witness :
    (SequencePropertiesNA.init.loadSequence "ARA".toList "Unknown" "na").mLength = 3 ∧
    (SequencePropertiesNA.init.loadSequence "ARA".toList "Unknown" "na").mCountsOthers
      = 1 ∧
    (SequencePropertiesNA.init.loadSequence "ARA".toList "Unknown" "na").mCountsNA 'A'
      = 2 ∧
    (SequencePropertiesNA.init.loadSequence "ARA".toList "Unknown" "na").mCountsNA 'R'
      = 0 := by
  obtain ⟨h1, h2, h3, h4⟩ := c7_unknown_symbol_tallied_as_other "ARA".toList
  exact ⟨h1, by rw [h2]; decide, by rw [h3 'A' (by decide)]; decide,
    h4 'R' (by decide)⟩

/-! ## C3 -/

/-- C3 (counterexample): loading the length-7 sequence "AAAAAAA" into a fresh
degeneracy accumulator raises the malformed-sequence error, but the
accumulator does NOT retain its prior state: `mLength` has become 7 (it was
0), because the inherited length load runs before the multiple-of-3 check. -/
theorem c3_degeneracy_keeps_partial_state :
    (SequencePropertiesDegeneracy.loadSequence (fun _ => false) (fun _ => none)
        SequencePropertiesDegeneracy.init (List.replicate 7 'A') "Unknown" "na").2 =
      some PyErr.valueError ∧
    (SequencePropertiesDegeneracy.loadSequence (fun _ => false) (fun _ => none)
        SequencePropertiesDegeneracy.init (List.replicate 7 'A') "Unknown" "na").1.mLength
      = 7 ∧
    SequencePropertiesDegeneracy.init.mLength = 0 := by
  refine ⟨by decide, by decide, rfl⟩

/-- C3 (amended): a sequence whose length is not a multiple of 3 makes every
codon-based accumulator raise the malformed-sequence `ValueError`, which
propagates to the caller, and no tally is touched; the codon accumulator
checks before mutating anything and is completely unchanged, but the
degeneracy and translated-amino-acid accumulators run the inherited
length/title/sequence load first, so those inherited fields are already
updated when the error propagates. -/
theorem c3_codon_accumulators_reject_nonmultiple3
    (isStop : Codon → Bool) (getDeg : Codon → Option (Char × (Fin 3 → Fin 5)))
    (mapCodon2AA : Codon → Char)
    (stc : SequencePropertiesCodons) (std : SequencePropertiesDegeneracy)
    (sta : SequencePropertiesAA) (s : List Char) (title seqtype : String)
    (h : s.length % 3 ≠ 0) :
    SequencePropertiesCodons.loadSequence stc s title seqtype =
      (stc, some PyErr.valueError) ∧
    ((SequencePropertiesDegeneracy.loadSequence isStop getDeg std s title seqtype).2 =
        some PyErr.valueError ∧
      (SequencePropertiesDegeneracy.loadSequence isStop getDeg std s title seqtype).1.mCounts
        = std.mCounts ∧
      (SequencePropertiesDegeneracy.loadSequence isStop getDeg std s title
          seqtype).1.mCountsDegeneracy = std.mCountsDegeneracy ∧
      (SequencePropertiesDegeneracy.loadSequence isStop getDeg std s title
          seqtype).1.mNStopCodons = std.mNStopCodons ∧
      (SequencePropertiesDegeneracy.loadSequence isStop getDeg std s title
          seqtype).1.mLength = s.length) ∧
    ((SequencePropertiesAA.loadSequence mapCodon2AA sta s title seqtype).2 =
        some PyErr.valueError ∧
      (SequencePropertiesAA.loadSequence mapCodon2AA sta s title seqtype).1.mCountsAA =
        sta.mCountsAA ∧
      (SequencePropertiesAA.loadSequence mapCodon2AA sta s title seqtype).1.mLength =
        (pyClean s).length) := by
  simp only [SequencePropertiesCodons.loadSequence,
    SequencePropertiesDegeneracy.loadSequence, SequencePropertiesAA.loadSequence,
    if_pos h]
  refine ⟨?_, ⟨?_, ?_, ?_, ?_, ?_⟩, ?_, ?_, ?_⟩ <;> first | trivial | rfl

/-- C3 (witness): at the concrete length-7 input "AAAAAAA" the codon
accumulator is returned unchanged together with the error, and the
translated-amino-acid accumulator propagates the same error. -/
theorem c3_reject_witness :
    SequencePropertiesCodons.init.loadSequence (List.replicate 7 'A') "Unknown" "na" =
      (SequencePropertiesCodons.init, some PyErr.valueError) ∧
    (SequencePropertiesAA.loadSequence (fun _ => 'A') SequencePropertiesAA.init
        (List.replicate 7 'A') "Unknown" "na").2 = some PyErr.valueError := by
  obtain ⟨h1, _, h3⟩ := c3_codon_accumulators_reject_nonmultiple3 (fun _ => false)
    (fun _ => none) (fun _ => 'A') SequencePropertiesCodons.init
    SequencePropertiesDegeneracy.init SequencePropertiesAA.init (List.replicate 7 'A')
    "Unknown" "na" (by decide)
  exact ⟨h1, h3.1⟩

/-! ## C5 -/

/-- C5: the NA field row is misaligned with the header row.  After loading
"G", the header "nGC" sits at index 8, but the field at index 8 is the count
of the symbol C (which is 0) while the GC tally is 1 — `getFields` emits the
counts in the order other, GC, AT, per-symbol, whereas `getHeaders` lists
nUnk, per-symbol, nGC, nAT.  The "nUnk" column (index 2) does line up with
the other-tally. -/
theorem c5_na_fields_misaligned_with_headers :
    ((SequencePropertiesNA.init.loadSequence ['G'] "Unknown" "na").getHeaders).indexOf
      "nGC" = 8 ∧
    ((SequencePropertiesNA.init.loadSequence ['G'] "Unknown" "na").getFields).getD 8
      FieldVal.naF = FieldVal.intF 0 ∧
    (SequencePropertiesNA.init.loadSequence ['G'] "Unknown" "na").mCountsGC = 1 ∧
    ((SequencePropertiesNA.init.loadSequence ['G'] "Unknown" "na").getHeaders).indexOf
      "nUnk" = 2 ∧
    ((SequencePropertiesNA.init.loadSequence ['G'] "Unknown" "na").getFields).getD 2
      FieldVal.naF = FieldVal.intF 0 ∧
    (SequencePropertiesNA.init.loadSequence ['G'] "Unknown" "na").mCountsOthers = 0 := by
  decide

/-! ## C6 -/

/-- C6 (counterexample): the claim fails for the translated-amino-acid
accumulator: loading the zero-length sequence succeeds, but `getFields`
divides by the zero total without a guard and raises `ZeroDivisionError`
instead of returning count/sentinel fields. -/
theorem c6_aa_zero_division_on_empty :
    (SequencePropertiesAA.loadSequence (fun _ => 'A') SequencePropertiesAA.init []
        "Unknown" "na").2 = none ∧
    (SequencePropertiesAA.loadSequence (fun _ => 'A') SequencePropertiesAA.init []
        "Unknown" "na").1.getFields = none := by
  decide

/-- C6 (amended): for the nucleotide accumulator the claim holds — on the
zero-length sequence every count field is zero and every
percentage/ratio field is the "na" sentinel — but the translated-amino-acid
accumulator raises `ZeroDivisionError` from `getFields`, and the CpG
accumulator reports its two derived ratio fields as 0.0 rather than "na". -/
theorem c6_zero_length_fields :
    (SequencePropertiesNA.init.loadSequence [] "Unknown" "na").getFields =
      [FieldVal.intF 0, FieldVal.intF 0, FieldVal.intF 0, FieldVal.intF 0,
       FieldVal.intF 0, FieldVal.intF 0, FieldVal.intF 0, FieldVal.intF 0,
       FieldVal.intF 0, FieldVal.intF 0, FieldVal.naF, FieldVal.naF, FieldVal.naF,
       FieldVal.naF, FieldVal.naF, FieldVal.naF, FieldVal.naF] ∧
    (SequencePropertiesAA.loadSequence (fun _ => 'A') SequencePropertiesAA.init []
        "Unknown" "na").1.getFields = none ∧
    (SequencePropertiesCpg.init.loadSequence [] "Unknown" "na").mCpG_density = 0 ∧
    (SequencePropertiesCpg.init.loadSequence [] "Unknown" "na").mCpG_ObsExp = 0 ∧
    ((SequencePropertiesCpg.init.loadSequence [] "Unknown" "na").getFields).getD 34
      FieldVal.naF = FieldVal.ratF 0 ∧
    ((SequencePropertiesCpg.init.loadSequence [] "Unknown" "na").getFields).getD 35
      FieldVal.naF = FieldVal.ratF 0 := by
  have hload : SequencePropertiesCpg.init.loadSequence [] "Unknown" "na" =
      { SequencePropertiesCpg.init.loadRaw [] "Unknown" "na" with
        mCpG_density := 0, mCpG_ObsExp := 0 } := by
    simp only [SequencePropertiesCpg.loadSequence]
    rw [if_neg]
    decide
  refine ⟨?_, by decide, ?_, ?_, ?_, ?_⟩
  · simp only [SequencePropertiesNA.loadSequence, SequencePropertiesNA.getFields]
    simp [naFieldList, naAlphabet, SequencePropertiesNA.init, pyClean]
  · rw [hload]
  · rw [hload]
  · rw [hload]
    simp only [SequencePropertiesCpg.getFields]
    simp [naFieldList, dnFieldList, dnPairs, dnAlphabet, naAlphabet, pyClean,
      SequencePropertiesCpg.init, SequencePropertiesCpg.loadRaw, pairsOf]
  · rw [hload]
    simp only [SequencePropertiesCpg.getFields]
    simp [naFieldList, dnFieldList, dnPairs, dnAlphabet, naAlphabet, pyClean,
      SequencePropertiesCpg.init, SequencePropertiesCpg.loadRaw, pairsOf]

/-! ## C4 -/

lemma naFieldList_length (len : Nat) (nc : ℚ) (o g a : Nat) (cs : Char → Nat) :
    (naFieldList len nc o g a cs).length = 17 := by
  simp only [naFieldList]
  split_ifs <;> simp [naAlphabet]

lemma naHeaderList_length : naHeaderList.length = 17 := by rfl

lemma dnPairs_length : dnPairs.length = 16 := by rfl

lemma dnFieldList_length (o : Nat) (d : Char × Char → Nat) :
    (dnFieldList o d).length = 17 := by
  simp [dnFieldList, dnPairs_length]

lemma dnHeaderList_length : dnHeaderList.length = 17 := by rfl

lemma insertLe_length (x : Codon) (l : List Codon) :
    (insertLe x l).length = l.length + 1 := by
  induction l with
  | nil => rfl
  | cons y r ih =>
    unfold insertLe
    split
    · rfl
    · simp [ih]

lemma sortCodons_length (l : List Codon) : (sortCodons l).length = l.length := by
  unfold sortCodons
  induction l with
  | nil => rfl
  | cons x r ih => simp [insertLe_length, ih]

lemma calcFreq_length (c : List (Codon × Nat)) :
    (CalculateCodonFrequenciesFromCounts c).length = c.length := by
  simp only [CalculateCodonFrequenciesFromCounts]
  split <;> simp

/-- C4 (counterexample): the claim fails for the codon-translator variant.
Loading the valid in-frame sequence "AAATTT" succeeds, but `getFields`
returns one column per codon (two here) while `getHeaders` returns the single
column "tsequence"; the zero-length input likewise gives zero fields against
one header. -/
theorem c4_translator_header_field_mismatch :
    (SequencePropertiesCodonTranslator.init.loadSequence "AAATTT".toList "Unknown"
        "na").2 = none ∧
    ((SequencePropertiesCodonTranslator.init.loadSequence "AAATTT".toList "Unknown"
        "na").1.getFields).length = 2 ∧
    ((SequencePropertiesCodonTranslator.init.loadSequence "AAATTT".toList "Unknown"
        "na").1.getHeaders).length = 1 ∧
    (SequencePropertiesCodonTranslator.init.loadSequence [] "Unknown" "na").2 = none ∧
    ((SequencePropertiesCodonTranslator.init.loadSequence [] "Unknown"
        "na").1.getFields).length = 0 := by
  decide

/-- C4 (amended): for every accumulator variant except the codon translator,
whenever `getFields` returns a row (the AA and codon variants can instead
raise `ZeroDivisionError`), that row has exactly the length of `getHeaders`
(for the codon-usage variant, whenever its frequency table has as many
entries as its count table, as it does in every reachable state); the
codon-translator variant instead emits one field per codon slice of the
stored sequence against a single header. -/
theorem c4_headers_fields_length_agree :
    (∀ st : SequencePropertiesSequence, (st.getFields).length = (st.getHeaders).length) ∧
    (∀ st : SequencePropertiesHid, (st.getFields).length = (st.getHeaders).length) ∧
    (∀ st : SequencePropertiesLength, (st.getFields).length = (st.getHeaders).length) ∧
    (∀ st : SequencePropertiesNA, (st.getFields).length = (st.getHeaders).length) ∧
    (∀ st : SequencePropertiesDN, (st.getFields).length = (st.getHeaders).length) ∧
    (∀ st : SequencePropertiesCpg, (st.getFields).length = (st.getHeaders).length) ∧
    (∀ st : SequencePropertiesGaps, (st.getFields).length = (st.getHeaders).length) ∧
    (∀ st : SequencePropertiesDegeneracy,
      (st.getFields).length = (st.getHeaders).length) ∧
    (∀ st : SequencePropertiesAA, ∀ fs, st.getFields = some fs →
      fs.length = (st.getHeaders).length) ∧
    (∀ st : SequencePropertiesAminoAcids,
      (st.getFields).length = (st.getHeaders).length) ∧
    (∀ st : SequencePropertiesCounts, (st.getFields).length = (st.getHeaders).length) ∧
    (∀ st : SequencePropertiesCodons, ∀ fs, st.getFields = some fs →
      fs.length = (st.getHeaders).length) ∧
    (∀ st : SequencePropertiesCodonUsage,
      st.mCodonFrequencies.length = st.mCodonCounts.length →
      (st.getFields).length = (st.getHeaders).length) ∧
    (∀ (log : ℚ → ℚ) (st : SequencePropertiesEntropy),
      (SequencePropertiesEntropy.getFields log st).length = (st.getHeaders).length) ∧
    (∀ st : SequencePropertiesCodonTranslator,
      (st.getFields).length = (chunks3 st.mSequence).length ∧
        (st.getHeaders).length = 1) := by
  refine ⟨fun st => rfl, fun st => rfl, fun st => rfl, ?_, ?_, ?_, fun st => rfl,
    ?_, ?_, ?_, ?_, ?_, ?_, ?_, ?_⟩
  · intro st
    show (naFieldList _ _ _ _ _ _).length = naHeaderList.length
    rw [naFieldList_length, naHeaderList_length]
  · intro st
    show (dnFieldList _ _).length = dnHeaderList.length
    rw [dnFieldList_length, dnHeaderList_length]
  · intro st
    show (naFieldList _ _ _ _ _ _ ++ dnFieldList _ _ ++ _).length = _
    simp [naFieldList_length, dnFieldList_length, SequencePropertiesCpg.getHeaders,
      naHeaderList_length, dnHeaderList_length]
  · intro st
    have h1 : (st.getFields).length = 20 := rfl
    have h2 : (st.getHeaders).length = 20 := rfl
    rw [h1, h2]
  · intro st fs h
    simp only [SequencePropertiesAA.getFields] at h
    split at h
    · cases h
    · injection h with h'
      subst h'
      simp [SequencePropertiesAA.getHeaders, extendedProtein]
  · intro st
    simp only [SequencePropertiesAminoAcids.getFields,
      SequencePropertiesAminoAcids.getHeaders]
    split_ifs <;> simp [extendedProtein]
  · intro st
    simp only [SequencePropertiesCounts.getFields, SequencePropertiesCounts.getHeaders]
    split_ifs <;> simp <;> omega
  · intro st fs h
    simp only [SequencePropertiesCodons.getFields] at h
    split at h
    · cases h
    · injection h with h'
      subst h'
      simp [SequencePropertiesCodons.getHeaders]
  · intro st hk
    simp only [SequencePropertiesCodonUsage.getFields,
      SequencePropertiesCodonUsage.getHeaders, SequencePropertiesCodonUsage.updateProperties]
    simp [sortCodons_length, calcFreq_length, hk]
  · intro log st
    simp only [SequencePropertiesEntropy.getFields]
    cases hE : SequencePropertiesEntropy.getEntropy log st <;>
      simp [hE, SequencePropertiesEntropy.getHeaders]
  · intro st
    exact ⟨by simp [SequencePropertiesCodonTranslator.getFields], rfl⟩

/-- C4 (witness): the hypothesis-bearing conjuncts at concrete loaded states:
an AA accumulator loaded with "GGG" (fields return a row of the headers'
length 52), a codon accumulator loaded with "AAATTT" (row length 130), and
the fresh codon-usage accumulator (64 frequency entries against 64 count
entries). -/
theorem c4_length_agree_witness :
    ((((SequencePropertiesAA.loadSequence (fun _ => 'G') SequencePropertiesAA.init
        "GGG".toList "Unknown" "na").1.getFields).getD []).length =
      ((SequencePropertiesAA.loadSequence (fun _ => 'G') SequencePropertiesAA.init
        "GGG".toList "Unknown" "na").1.getHeaders).length) ∧
    ((((SequencePropertiesCodons.init.loadSequence "AAATTT".toList "Unknown"
        "na").1.getFields).getD []).length =
      ((SequencePropertiesCodons.init.loadSequence "AAATTT".toList "Unknown"
        "na").1.getHeaders).length) ∧
    ((SequencePropertiesCodonUsage.init.getFields).length =
      (SequencePropertiesCodonUsage.init.getHeaders).length) := by
  obtain ⟨_, _, _, _, _, _, _, _, hAA, _, _, hCod, hUse, _, _⟩ :=
    c4_headers_fields_length_agree
  refine ⟨?_, ?_, ?_⟩
  · exact hAA _ _ rfl
  · exact hCod _ _ rfl
  · exact hUse _ (by rfl)

end CGATSeqProps
